import Mathlib

/-!
Verification development for the emulator runtime core (timer, APU, thread
harness).  The definitions below are a shallow embedding of the C sources:

  * `src/gb/timer.c`        — DIV/TIMA hardware timer (`GBTimerProcessEvents`, …)
  * the audio unit          — four-channel PSG (`GBAudioWriteNR52`,
                              `GBAudioProcessEvents`, `_updateEnvelope`,
                              `_updateChannel4`, …)
  * `src/core/thread.c`     — worker thread state machine (`mCoreThreadEnd`,
                              `mCoreThreadInterrupt`, `mCoreThreadContinue`)

Machine integers: all `int32_t` cycle arithmetic is represented by `Int`
(signed deltas; no wraparound is exercised by any theorem below, matching the
C code, where signed overflow would be undefined).  Hardware bytes
(`uint8_t`) are represented by `Nat` with explicit `% 256` where the C code
relies on 8-bit wraparound.

External collaborators that are not part of this repository (the parent
`struct GB`'s interrupt raiser `GBUpdateIRQs`, the blip resampler, the sync
primitives) are modelled as explicit event logs / counters on the state, so
that invoking them is observable, as documented at each definition.
-/

set_option maxRecDepth 6000

/-! ## Timer: data model (`struct GBTimer`, `src/gb/timer.c`) -/

/-- `INT_MAX` for 32-bit `int`; `nextTima = INT_MAX` means "TIMA disabled". -/
def INT_MAX : Int := 2147483647

/-- Modelled from the spec: `GB_DMG_DIV_PERIOD` is defined in a header that is
not among the sources; §3/§4.2 of the spec fix the DMG DIV prescaler period at
256 cycles. -/
def GB_DMG_DIV_PERIOD : Int := 256

/-- Modelled from the spec: the bit index of the timer IRQ in the `IF`
register (`GB_IRQ_TIMER`, declared in a header that is not among the
sources).  Its concrete value is irrelevant to every theorem below. -/
def GB_IRQ_TIMER : Nat := 2

/-- The memory-mapped bytes the timer touches (`timer->p->memory.io[...]`),
plus two instrumentation counters: `irqUpdates` counts invocations of the
external `GBUpdateIRQs(timer->p)` (the function lives outside this
repository), and `timaIncrements` counts executions of
`++timer->p->memory.io[REG_TIMA]`. -/
structure GBTimerMem where
  div : Nat
  tima : Nat
  tma : Nat
  iflags : Nat
  irqUpdates : Nat
  timaIncrements : Nat
  deriving DecidableEq

/-- `struct GBTimer` (cycle-deadline fields are `int32_t` in C). -/
structure GBTimer where
  nextDiv : Int
  nextTima : Int
  nextEvent : Int
  eventDiff : Int
  timaPeriod : Int
  mem : GBTimerMem
  deriving DecidableEq

/-- `GBTimerReset` (`timer.c:11-17`). The DIV byte itself is not touched. -/
def GBTimerReset (timer : GBTimer) : GBTimer :=
  { timer with
    nextDiv := GB_DMG_DIV_PERIOD
    nextTima := INT_MAX
    nextEvent := GB_DMG_DIV_PERIOD
    eventDiff := 0
    timaPeriod := 1024 }

/-- `GBTimerProcessEvents` (`timer.c:19-49`), translated statement by
statement.  Returns the updated timer state together with the function's
`int32_t` return value (`timer->nextEvent`). -/
def GBTimerProcessEvents (timer : GBTimer) (cycles : Int) : GBTimer × Int :=
  let timer : GBTimer := { timer with
    eventDiff := timer.eventDiff + cycles
    nextEvent := timer.nextEvent - cycles }
  if timer.nextEvent ≤ 0 then
    let timer : GBTimer := { timer with nextDiv := timer.nextDiv - timer.eventDiff }
    let timer : GBTimer :=
      if timer.nextDiv ≤ 0 then
        { timer with
          mem := { timer.mem with div := (timer.mem.div + 1) % 256 }
          nextDiv := GB_DMG_DIV_PERIOD }
      else timer
    let timer : GBTimer := { timer with nextEvent := timer.nextDiv }
    let timer : GBTimer :=
      if timer.nextTima ≠ INT_MAX then
        let timer : GBTimer := { timer with nextTima := timer.nextTima - timer.eventDiff }
        let timer : GBTimer :=
          if timer.nextTima ≤ 0 then
            let timer : GBTimer := { timer with
              mem := { timer.mem with
                tima := (timer.mem.tima + 1) % 256
                timaIncrements := timer.mem.timaIncrements + 1 } }
            let timer : GBTimer :=
              if timer.mem.tima = 0 then
                { timer with
                  mem := { timer.mem with
                    tima := timer.mem.tma
                    iflags := timer.mem.iflags ||| (1 <<< GB_IRQ_TIMER)
                    irqUpdates := timer.mem.irqUpdates + 1 } }
              else timer
            { timer with nextTima := timer.timaPeriod }
          else timer
        if timer.nextTima < timer.nextEvent then
          { timer with nextEvent := timer.nextTima }
        else timer
      else timer
    let timer : GBTimer := { timer with eventDiff := 0 }
    (timer, timer.nextEvent)
  else
    (timer, timer.nextEvent)

/-! ## Timer: scheduler-driven runs (for the TIMA tick-counting claim) -/

/-- One scheduler-driven service round: the CPU runs exactly the
`next_event` cycles the timer last asked for and then calls
`GBTimerProcessEvents` with that delta (spec §4.1's protocol). -/
def timerSchedStep (t : GBTimer) : GBTimer :=
  (GBTimerProcessEvents t t.nextEvent).1

/-- `k` scheduler-driven service rounds. -/
def timerSchedRun : Nat → GBTimer → GBTimer
  | 0, t => t
  | k + 1, t => timerSchedRun k (timerSchedStep t)

/-- Total cycles spanned by `k` scheduler-driven service rounds. -/
def timerSchedElapsed : Nat → GBTimer → Int
  | 0, _ => 0
  | k + 1, t => t.nextEvent + timerSchedElapsed k (timerSchedStep t)

/-- The in-phase state invariant for scheduler-driven runs with TIMA enabled
at a fixed `tima_period` `P`. -/
def TimerSchedInv (P : Int) (t : GBTimer) : Prop :=
  0 < t.nextTima ∧ t.nextTima ≤ P ∧
  0 < t.nextDiv ∧ t.nextDiv ≤ GB_DMG_DIV_PERIOD ∧
  t.nextEvent ≤ t.nextDiv ∧ t.nextEvent ≤ t.nextTima ∧
  (t.nextEvent = t.nextDiv ∨ t.nextEvent = t.nextTima) ∧
  t.eventDiff = 0 ∧ t.timaPeriod = P

instance (P : Int) (t : GBTimer) : Decidable (TimerSchedInv P t) := by
  unfold TimerSchedInv; exact inferInstance

/-! ## Audio: register field accessors

Modelled from the spec: the `DECL_BITFIELD` accessors live in `audio.h`,
which is not among the sources; the bit layouts are fixed by the spec's §6
register table (NR10 sweep `shift[2:0], direction[3], time[6:4]`; NRx2
envelope `step_time[2:0], direction[3], initial_volume[7:4]`; NRx4
`frequency high[2:0], stop[6], restart[7]` — accessed on `value << 8` so the
stop/restart bits sit at 14/15; NR43 `ratio[2:0], width[3], shift[7:4]`;
NR50 `right volume[2:0], left volume[6:4]`; NR51 routing bits; NR52 bit 7
master enable; NR11/21/41 duty `length[5:0], duty[7:6]`). -/

def GBAudioRegisterSquareSweepGetShift (v : Nat) : Nat := v &&& 0x7

def GBAudioRegisterSquareSweepGetDirection (v : Nat) : Bool := v.testBit 3

def GBAudioRegisterSquareSweepGetTime (v : Nat) : Nat := (v >>> 4) &&& 0x7

def GBAudioRegisterDutyGetLength (v : Nat) : Nat := v &&& 0x3F

def GBAudioRegisterDutyGetDuty (v : Nat) : Nat := (v >>> 6) &&& 0x3

def GBAudioRegisterSweepGetStepTime (v : Nat) : Nat := v &&& 0x7

def GBAudioRegisterSweepGetDirection (v : Nat) : Bool := v.testBit 3

def GBAudioRegisterSweepGetInitialVolume (v : Nat) : Nat := (v >>> 4) &&& 0xF

def GBAudioRegisterControlGetFrequency (v : Nat) : Nat := v &&& 0x7FF

def GBAudioRegisterControlGetRate (v : Nat) : Nat := v &&& 0x7FF

def GBAudioRegisterControlGetStop (v : Nat) : Bool := v.testBit 14

def GBAudioRegisterControlIsRestart (v : Nat) : Bool := v.testBit 15

def GBAudioRegisterBankGetEnable (v : Nat) : Bool := v.testBit 7

def GBAudioRegisterBankVolumeGetVolumeGB (v : Nat) : Nat := (v >>> 5) &&& 0x3

def GBAudioRegisterNoiseFeedbackGetRatio (v : Nat) : Nat := v &&& 0x7

def GBAudioRegisterNoiseFeedbackGetFrequency (v : Nat) : Nat := (v >>> 4) &&& 0xF

def GBAudioRegisterNoiseFeedbackGetPower (v : Nat) : Bool := v.testBit 3

def GBAudioRegisterNoiseControlGetStop (v : Nat) : Bool := v.testBit 6

def GBAudioRegisterNoiseControlIsRestart (v : Nat) : Bool := v.testBit 7

def GBRegisterNR50GetVolumeRight (v : Nat) : Nat := v &&& 0x7

def GBRegisterNR50GetVolumeLeft (v : Nat) : Nat := (v >>> 4) &&& 0x7

def GBRegisterNR51GetCh1Right (v : Nat) : Bool := v.testBit 0

def GBRegisterNR51GetCh2Right (v : Nat) : Bool := v.testBit 1

def GBRegisterNR51GetCh3Right (v : Nat) : Bool := v.testBit 2

def GBRegisterNR51GetCh4Right (v : Nat) : Bool := v.testBit 3

def GBRegisterNR51GetCh1Left (v : Nat) : Bool := v.testBit 4

def GBRegisterNR51GetCh2Left (v : Nat) : Bool := v.testBit 5

def GBRegisterNR51GetCh3Left (v : Nat) : Bool := v.testBit 6

def GBRegisterNR51GetCh4Left (v : Nat) : Bool := v.testBit 7

def GBAudioEnableGetEnable (v : Nat) : Bool := v.testBit 7

/-! ## Audio: data model (`struct GBAudio` and its channels) -/

/-- `enum GBAudioStyle`.  Modelled from the spec's style enum (§9); the code
only distinguishes `GB_AUDIO_DMG` from the rest, plus a dedicated
`GB_AUDIO_GBA` wave path. -/
inductive GBAudioStyle where
  | GB_AUDIO_DMG
  | GB_AUDIO_CGB
  | GB_AUDIO_GBA
  deriving DecidableEq

/-- `struct GBAudioEnvelope` (§4.3.2): volume envelope plus the duty/length
byte that shares the NRx1 register. -/
structure GBAudioEnvelope where
  length : Nat
  duty : Nat
  stepTime : Nat
  direction : Bool
  initialVolume : Nat
  currentVolume : Int
  nextStep : Int
  dead : Nat
  deriving DecidableEq

/-- `struct GBAudioSquareControl`. -/
structure GBAudioSquareControl where
  frequency : Nat
  length : Nat
  hi : Bool
  stop : Bool
  deriving DecidableEq

/-- `struct GBAudioChannel1` (square + sweep). `realFrequency` mirrors the C
`int` sweep shadow register. -/
structure GBAudioChannel1 where
  shift : Nat
  time : Nat
  direction : Bool
  sweepStep : Int
  sweepEnable : Bool
  sweepOccurred : Bool
  realFrequency : Int
  envelope : GBAudioEnvelope
  control : GBAudioSquareControl
  sample : Int
  deriving DecidableEq

/-- `struct GBAudioChannel2` (plain square). -/
structure GBAudioChannel2 where
  envelope : GBAudioEnvelope
  control : GBAudioSquareControl
  sample : Int
  deriving DecidableEq

/-- `struct GBAudioChannel3` (wavetable).  Modelled from the spec (§3): the
32 bytes of wave RAM are one array, addressed as bytes (`wavedata8`, DMG
path) or as little-endian 32-bit words (`wavedata32`, GBA path); `audio.h`
itself is not among the sources. -/
structure GBAudioChannel3 where
  bank : Nat
  size : Nat
  enable : Bool
  length : Nat
  volume : Nat
  rate : Nat
  stop : Bool
  window : Nat
  readable : Bool
  wavedata : List Nat
  sample : Int
  deriving DecidableEq

/-- `struct GBAudioChannel4` (noise LFSR). -/
structure GBAudioChannel4 where
  envelope : GBAudioEnvelope
  ratio : Nat
  frequency : Nat
  power : Bool
  stop : Bool
  length : Nat
  lfsr : Nat
  sample : Int
  deriving DecidableEq

/-- Modelled from the spec: the band-limited resampler (`blip_t`) is an
external opaque component (§1, §6).  `deltas` logs every
`blip_add_delta(buf, clock, delta)`, `frames` logs every
`blip_end_frame(buf, clock)`, and `avail` stands for
`blip_samples_avail(buf)`, which the audio code only reads. -/
structure Blip where
  avail : Nat
  deltas : List (Int × Int)
  frames : List Int
  deriving DecidableEq

def blip_add_delta (b : Blip) (clock : Int) (delta : Int) : Blip :=
  { b with deltas := (clock, delta) :: b.deltas }

def blip_end_frame (b : Blip) (clock : Int) : Blip :=
  { b with frames := clock :: b.frames }

def blip_samples_avail (b : Blip) : Nat := b.avail

/-- The audio-register bytes of `audio->p->memory.io[REG_NR..]`. -/
structure GBMemRegs where
  nr10 : Nat
  nr11 : Nat
  nr12 : Nat
  nr13 : Nat
  nr14 : Nat
  nr21 : Nat
  nr22 : Nat
  nr23 : Nat
  nr24 : Nat
  nr30 : Nat
  nr31 : Nat
  nr32 : Nat
  nr33 : Nat
  nr34 : Nat
  nr41 : Nat
  nr42 : Nat
  nr43 : Nat
  nr44 : Nat
  nr50 : Nat
  nr51 : Nat
  deriving DecidableEq

/-- The slice of the parent `struct GB` the audio unit touches
(`audio->p->…`).  The sync and stream collaborators live outside this
repository (spec §1), so their invocations are recorded as logs:
`syncProduceLog` records each `mCoreSyncProduceAudio(sync, wait)` flag,
`postAudioFrames`/`postAudioBuffers` count the stream callbacks. -/
structure GBParent where
  mem : GBMemRegs
  cpuCycles : Int
  cpuNextEvent : Int
  doubleSpeed : Nat
  hasStream : Bool
  syncProduceLog : List Bool
  postAudioFrames : Nat
  postAudioBuffers : Nat
  deriving DecidableEq

/-- `struct GBAudio`.  `nr52` is the byte `*audio->nr52` points at;
`p = none` models a null parent pointer. -/
structure GBAudio where
  p : Option GBParent
  nr52 : Nat
  style : GBAudioStyle
  samples : Nat
  left : Blip
  right : Blip
  forceDisableCh : List Bool
  masterVolume : Int
  enable : Bool
  nextEvent : Int
  eventDiff : Int
  nextFrame : Int
  frame : Nat
  nextCh1 : Int
  nextCh2 : Int
  nextCh3 : Int
  fadeCh3 : Int
  nextCh4 : Int
  nextSample : Int
  sampleInterval : Int
  lastLeft : Int
  lastRight : Int
  clock : Int
  volumeRight : Nat
  volumeLeft : Nat
  ch1Right : Bool
  ch2Right : Bool
  ch3Right : Bool
  ch4Right : Bool
  ch1Left : Bool
  ch2Left : Bool
  ch3Left : Bool
  ch4Left : Bool
  playingCh1 : Bool
  playingCh2 : Bool
  playingCh3 : Bool
  playingCh4 : Bool
  ch1 : GBAudioChannel1
  ch2 : GBAudioChannel2
  ch3 : GBAudioChannel3
  ch4 : GBAudioChannel4
  deriving DecidableEq

/-- `FRAME_CYCLES = DMG_LR35902_FREQUENCY >> 9 = 0x400000 >> 9`. -/
def FRAME_CYCLES : Int := 8192

/-- `CLOCKS_PER_BLIP_FRAME = 0x1000`. -/
def CLOCKS_PER_BLIP_FRAME : Int := 4096

/-! ## Audio: helper routines (`audio.c` statics) -/

/-- `_writeDuty` (duty/length byte into the envelope record). -/
def _writeDuty (envelope : GBAudioEnvelope) (value : Nat) : GBAudioEnvelope :=
  { envelope with
    length := GBAudioRegisterDutyGetLength value
    duty := GBAudioRegisterDutyGetDuty value }

/-- `_writeSweep` (NRx2 envelope byte); returns the updated envelope and the
C function's `bool` result (`initialVolume || direction`). -/
def _writeSweep (envelope : GBAudioEnvelope) (value : Nat) :
    GBAudioEnvelope × Bool :=
  let envelope : GBAudioEnvelope := { envelope with
    stepTime := GBAudioRegisterSweepGetStepTime value
    direction := GBAudioRegisterSweepGetDirection value
    initialVolume := GBAudioRegisterSweepGetInitialVolume value }
  let envelope : GBAudioEnvelope :=
    if envelope.stepTime = 0 then
      { envelope with dead := if envelope.currentVolume ≠ 0 then 1 else 2 }
    else if ¬envelope.direction ∧ envelope.currentVolume = 0 then
      { envelope with dead := 2 }
    else if envelope.direction ∧ envelope.currentVolume = 0xF then
      { envelope with dead := 1 }
    else
      { envelope with dead := 0 }
  let envelope : GBAudioEnvelope := { envelope with nextStep := envelope.stepTime }
  (envelope, (envelope.initialVolume != 0) || envelope.direction)

/-- `_updateSquareChannel`: toggles `hi` and returns the next half-period
for the given duty. -/
def _updateSquareChannel (control : GBAudioSquareControl) (duty : Nat) :
    GBAudioSquareControl × Int :=
  let control : GBAudioSquareControl := { control with hi := !control.hi }
  let period : Int := 4 * (2048 - (control.frequency : Int))
  match duty with
  | 0 => (control, if control.hi then period else period * 7)
  | 1 => (control, if control.hi then period * 2 else period * 6)
  | 2 => (control, period * 4)
  | 3 => (control, if control.hi then period * 6 else period * 2)
  | _ => (control, period * 4)

/-- `_updateEnvelope`: one envelope step (±1 with saturation, entering the
`dead` states at the rails, else reloading `nextStep`). -/
def _updateEnvelope (envelope : GBAudioEnvelope) : GBAudioEnvelope :=
  let envelope : GBAudioEnvelope :=
    if envelope.direction then
      { envelope with currentVolume := envelope.currentVolume + 1 }
    else
      { envelope with currentVolume := envelope.currentVolume - 1 }
  if envelope.currentVolume ≥ 15 then
    { envelope with currentVolume := 15, dead := 1 }
  else if envelope.currentVolume ≤ 0 then
    { envelope with currentVolume := 0, dead := 2 }
  else
    { envelope with nextStep := envelope.stepTime }

/-- The envelope clock of `GBAudioProcessEvents` (the `frame == 7` block,
restricted to the envelope record; the channel resamples separately):
`if (!dead) { --nextStep; if (nextStep == 0) { … _updateEnvelope … } }`. -/
def envelopeFrameTick (e : GBAudioEnvelope) : GBAudioEnvelope :=
  if e.dead = 0 then
    let e : GBAudioEnvelope := { e with nextStep := e.nextStep - 1 }
    if e.nextStep = 0 then _updateEnvelope e else e
  else e

/-- Iterated envelope clocks. -/
def envelopeFrameTicks : Nat → GBAudioEnvelope → GBAudioEnvelope
  | 0, e => e
  | n + 1, e => envelopeFrameTicks n (envelopeFrameTick e)

/-- `_updateSweep`, with explicit fuel for its single self-call (the
recursive call uses `initial = true`, which never recurses again; fuel 2 is
exact).  `frequency >> shift` on a nonnegative C `int` is floor division.
Returns the updated channel and the C `bool` result. -/
def _updateSweepAux (fuel : Nat) (ch : GBAudioChannel1) (initial : Bool) :
    GBAudioChannel1 × Bool :=
  match fuel with
  | 0 => (ch, false)
  | fuel + 1 =>
    if initial ∨ ch.time ≠ 8 then
      let frequency : Int := ch.realFrequency
      if ch.direction then
        let frequency := frequency - frequency / 2 ^ ch.shift
        let ch : GBAudioChannel1 :=
          if ¬initial ∧ 0 ≤ frequency then
            { ch with control.frequency := frequency.toNat, realFrequency := frequency }
          else ch
        let ch : GBAudioChannel1 := { ch with sweepOccurred := true }
        ({ ch with sweepStep := (ch.time : Int) }, true)
      else
        let frequency := frequency + frequency / 2 ^ ch.shift
        if frequency < 2048 then
          if ¬initial ∧ ch.shift ≠ 0 then
            let ch : GBAudioChannel1 :=
              { ch with control.frequency := frequency.toNat, realFrequency := frequency }
            let r := _updateSweepAux fuel ch true
            if r.2 then
              let ch : GBAudioChannel1 := { r.1 with sweepOccurred := true }
              ({ ch with sweepStep := (ch.time : Int) }, true)
            else (r.1, false)
          else
            let ch : GBAudioChannel1 := { ch with sweepOccurred := true }
            ({ ch with sweepStep := (ch.time : Int) }, true)
        else (ch, false)
    else
      ({ ch with sweepStep := (ch.time : Int) }, true)

def _updateSweep (ch : GBAudioChannel1) (initial : Bool) :
    GBAudioChannel1 × Bool :=
  _updateSweepAux 2 ch initial

/-- `_updateChannel1`: advance the square wave and recompute the sample. -/
def _updateChannel1 (ch : GBAudioChannel1) : GBAudioChannel1 × Int :=
  let r := _updateSquareChannel ch.control ch.envelope.duty
  let ch : GBAudioChannel1 := { ch with control := r.1 }
  let sample : Int := (if ch.control.hi then 1 else 0) * 0x10 - 0x8
  ({ ch with sample := sample * ch.envelope.currentVolume }, r.2)

/-- `_updateChannel2`. -/
def _updateChannel2 (ch : GBAudioChannel2) : GBAudioChannel2 × Int :=
  let r := _updateSquareChannel ch.control ch.envelope.duty
  let ch : GBAudioChannel2 := { ch with control := r.1 }
  let sample : Int := (if ch.control.hi then 1 else 0) * 0x10 - 0x8
  ({ ch with sample := sample * ch.envelope.currentVolume }, r.2)

/-- `wavedata8[i]`. -/
def wave8get (w : List Nat) (i : Nat) : Nat := w.getD i 0

/-- `wavedata8[i] = v`. -/
def wave8set (w : List Nat) (i : Nat) (v : Nat) : List Nat := w.set i v

/-- `wavedata32[i]` (little-endian word over the byte array). -/
def wave32get (w : List Nat) (i : Nat) : Nat :=
  wave8get w (4 * i) ||| (wave8get w (4 * i + 1) <<< 8) |||
    (wave8get w (4 * i + 2) <<< 16) ||| (wave8get w (4 * i + 3) <<< 24)

/-- `wavedata32[i] = v`. -/
def wave32set (w : List Nat) (i : Nat) (v : Nat) : List Nat :=
  wave8set (wave8set (wave8set (wave8set w (4 * i) (v &&& 0xFF))
    (4 * i + 1) ((v >>> 8) &&& 0xFF))
    (4 * i + 2) ((v >>> 16) &&& 0xFF))
    (4 * i + 3) ((v >>> 24) &&& 0xFF)

/-- The GBA nibble-rotation loop of `_updateChannel3` (`for (i = start;
i >= end; --i)`), running `cnt` iterations downward from word `i`; carries
`bitsCarry` exactly as the C loop does. -/
def waveRotateGo (w : List Nat) (bitsCarry : Nat) (i : Nat) :
    Nat → List Nat × Nat
  | 0 => (w, bitsCarry)
  | cnt + 1 =>
    let bits := wave32get w i &&& 0x000000F0
    let word := ((wave32get w i &&& 0x0F0F0F0F) <<< 4) |||
      ((wave32get w i &&& 0xF0F0F000) >>> 12)
    let word := word ||| (bitsCarry <<< 20)
    waveRotateGo (wave32set w i word) bits (i - 1) cnt

/-- `_updateChannel3`: advance the wave window (DMG) or rotate the wave
banks (GBA), recompute the sample, and return the next half-period. -/
def _updateChannel3 (ch : GBAudioChannel3) (style : GBAudioStyle) :
    GBAudioChannel3 × Int :=
  let volume : Int :=
    match ch.volume with
    | 0 => 0
    | 1 => 4
    | 2 => 2
    | 3 => 1
    | _ => 3
  let ch : GBAudioChannel3 :=
    match style with
    | GBAudioStyle.GB_AUDIO_GBA =>
      let se : Nat × Nat :=
        if ch.size ≠ 0 then (7, 0)
        else if ch.bank ≠ 0 then (7, 4)
        else (3, 0)
      let bitsCarry := wave32get ch.wavedata se.2 &&& 0x000000F0
      let r := waveRotateGo ch.wavedata bitsCarry se.1 (se.1 - se.2 + 1)
      { ch with wavedata := r.1, sample := ((r.2 >>> 4 : Nat) : Int) }
    | _ =>
      let window := (ch.window + 1) &&& 0x1F
      let s : Nat := wave8get ch.wavedata (window >>> 1)
      let s : Nat := if window &&& 1 = 0 then s >>> 4 else s
      { ch with window := window, sample := ((s &&& 0xF : Nat) : Int) }
  let ch : GBAudioChannel3 := { ch with sample := (ch.sample - 8) * (volume * 4) }
  (ch, 2 * (2048 - (ch.rate : Int)))

/-- The LFSR update inside `_updateChannel4`: shift right once and XOR the
extracted LSB into bits 5/6 (7-bit mode, `power` set) or 13/14 (15-bit
mode). -/
def lfsrStep (power : Bool) (lfsr : Nat) : Nat :=
  let lsb := lfsr &&& 1
  (lfsr >>> 1) ^^^ ((lsb * 0x60) <<< (if power then 0 else 8))

/-- Iterated LFSR updates. -/
def lfsrIter (power : Bool) (n : Nat) (x : Nat) : Nat :=
  (lfsrStep power)^[n] x

/-- `_updateChannel4`: sample from the LSB, advance the LFSR, and return the
noise period `(ratio ? 2*ratio : 1) << frequency << 3`. -/
def _updateChannel4 (ch : GBAudioChannel4) : GBAudioChannel4 × Int :=
  let lsb : Nat := ch.lfsr &&& 1
  let sample : Int := (lsb : Int) * 0x10 - 0x8
  let ch : GBAudioChannel4 := { ch with sample := sample * ch.envelope.currentVolume }
  let ch : GBAudioChannel4 := { ch with lfsr := ch.lfsr >>> 1 }
  let ch : GBAudioChannel4 :=
    { ch with lfsr := ch.lfsr ^^^ ((lsb * 0x60) <<< (if ch.power then 0 else 8)) }
  let timing : Int := if ch.ratio ≠ 0 then 2 * (ch.ratio : Int) else 1
  let timing := timing * 2 ^ ch.frequency
  (ch, timing * 8)

/-- `_scheduleEvent`: re-base `nextEvent` on the CPU clock and propagate it
to the CPU's own `nextEvent` (`cycles >> doubleSpeed` on a C `int`). -/
def _scheduleEvent (audio : GBAudio) : GBAudio :=
  match audio.p with
  | some p =>
    let ne : Int := p.cpuCycles / 2 ^ p.doubleSpeed
    { audio with nextEvent := ne, p := some { p with cpuNextEvent := ne } }
  | none => { audio with nextEvent := 0 }

/-! ## Audio: register writes (`GBAudioWriteNR10` … `GBAudioWriteNR52`) -/

def GBAudioWriteNR10 (audio : GBAudio) (value : Nat) : GBAudio :=
  let audio : GBAudio := { audio with ch1.shift := GBAudioRegisterSquareSweepGetShift value }
  let oldDirection := audio.ch1.direction
  let audio : GBAudio := { audio with ch1.direction := GBAudioRegisterSquareSweepGetDirection value }
  let audio : GBAudio :=
    if audio.ch1.sweepOccurred ∧ oldDirection ∧ ¬audio.ch1.direction then
      { audio with playingCh1 := false, nr52 := audio.nr52 &&& 0xFE }
    else audio
  let audio : GBAudio := { audio with ch1.sweepOccurred := false }
  let audio : GBAudio := { audio with ch1.time := GBAudioRegisterSquareSweepGetTime value }
  if audio.ch1.time = 0 then { audio with ch1.time := 8 } else audio

def GBAudioWriteNR11 (audio : GBAudio) (value : Nat) : GBAudio :=
  let audio : GBAudio := { audio with ch1.envelope := _writeDuty audio.ch1.envelope value }
  { audio with ch1.control.length := 64 - audio.ch1.envelope.length }

def GBAudioWriteNR12 (audio : GBAudio) (value : Nat) : GBAudio :=
  let r := _writeSweep audio.ch1.envelope value
  let audio : GBAudio := { audio with ch1.envelope := r.1 }
  if !r.2 then
    { audio with playingCh1 := false, nr52 := audio.nr52 &&& 0xFE }
  else audio

def GBAudioWriteNR13 (audio : GBAudio) (value : Nat) : GBAudio :=
  { audio with ch1.control.frequency :=
      (audio.ch1.control.frequency &&& 0x700) |||
      GBAudioRegisterControlGetFrequency value }

def GBAudioWriteNR14 (audio : GBAudio) (value : Nat) : GBAudio :=
  let audio : GBAudio := { audio with ch1.control.frequency :=
    (audio.ch1.control.frequency &&& 0xFF) |||
    GBAudioRegisterControlGetFrequency (value <<< 8) }
  let wasStop := audio.ch1.control.stop
  let audio : GBAudio :=
    { audio with ch1.control.stop := GBAudioRegisterControlGetStop (value <<< 8) }
  let audio : GBAudio :=
    if ¬wasStop ∧ audio.ch1.control.stop ∧ audio.ch1.control.length ≠ 0 ∧
        audio.frame % 2 = 0 then
      let audio : GBAudio := { audio with ch1.control.length := audio.ch1.control.length - 1 }
      if audio.ch1.control.length = 0 then { audio with playingCh1 := false } else audio
    else audio
  let audio : GBAudio :=
    if GBAudioRegisterControlIsRestart (value <<< 8) then
      let audio : GBAudio :=
        if audio.nextEvent = INT_MAX then { audio with eventDiff := 0 } else audio
      let audio : GBAudio :=
        if audio.playingCh1 then
          { audio with ch1.control.hi := !audio.ch1.control.hi }
        else audio
      let audio : GBAudio := { audio with nextCh1 := audio.eventDiff }
      let audio : GBAudio := { audio with playingCh1 :=
        (audio.ch1.envelope.initialVolume != 0) || audio.ch1.envelope.direction }
      let audio : GBAudio := { audio with ch1.envelope.currentVolume :=
        (audio.ch1.envelope.initialVolume : Int) }
      let audio : GBAudio :=
        if audio.ch1.envelope.currentVolume > 0 then
          { audio with ch1.envelope.dead :=
              if audio.ch1.envelope.stepTime ≠ 0 then 0 else 1 }
        else
          { audio with ch1.envelope.dead :=
              if audio.ch1.envelope.stepTime ≠ 0 then 0 else 2 }
      let audio : GBAudio := { audio with ch1.realFrequency :=
        (audio.ch1.control.frequency : Int) }
      let audio : GBAudio := { audio with ch1.sweepStep := (audio.ch1.time : Int) }
      let audio : GBAudio := { audio with ch1.sweepEnable :=
        (audio.ch1.sweepStep != 8) || (audio.ch1.shift != 0) }
      let audio : GBAudio := { audio with ch1.sweepOccurred := false }
      let audio : GBAudio :=
        if audio.playingCh1 ∧ audio.ch1.shift ≠ 0 then
          let r := _updateSweep audio.ch1 true
          { audio with ch1 := r.1, playingCh1 := r.2 }
        else audio
      let audio : GBAudio :=
        if audio.ch1.control.length = 0 then
          let audio : GBAudio := { audio with ch1.control.length := 64 }
          if audio.ch1.control.stop ∧ audio.frame % 2 = 0 then
            { audio with ch1.control.length := audio.ch1.control.length - 1 }
          else audio
        else audio
      _scheduleEvent audio
    else audio
  { audio with nr52 :=
      (audio.nr52 &&& 0xFE) ||| (if audio.playingCh1 then 1 else 0) }

def GBAudioWriteNR21 (audio : GBAudio) (value : Nat) : GBAudio :=
  let audio : GBAudio := { audio with ch2.envelope := _writeDuty audio.ch2.envelope value }
  { audio with ch2.control.length := 64 - audio.ch2.envelope.length }

def GBAudioWriteNR22 (audio : GBAudio) (value : Nat) : GBAudio :=
  let r := _writeSweep audio.ch2.envelope value
  let audio : GBAudio := { audio with ch2.envelope := r.1 }
  if !r.2 then
    { audio with playingCh2 := false, nr52 := audio.nr52 &&& 0xFD }
  else audio

def GBAudioWriteNR23 (audio : GBAudio) (value : Nat) : GBAudio :=
  { audio with ch2.control.frequency :=
      (audio.ch2.control.frequency &&& 0x700) |||
      GBAudioRegisterControlGetFrequency value }

def GBAudioWriteNR24 (audio : GBAudio) (value : Nat) : GBAudio :=
  let audio : GBAudio := { audio with ch2.control.frequency :=
    (audio.ch2.control.frequency &&& 0xFF) |||
    GBAudioRegisterControlGetFrequency (value <<< 8) }
  let wasStop := audio.ch2.control.stop
  let audio : GBAudio :=
    { audio with ch2.control.stop := GBAudioRegisterControlGetStop (value <<< 8) }
  let audio : GBAudio :=
    if ¬wasStop ∧ audio.ch2.control.stop ∧ audio.ch2.control.length ≠ 0 ∧
        audio.frame % 2 = 0 then
      let audio : GBAudio := { audio with ch2.control.length := audio.ch2.control.length - 1 }
      if audio.ch2.control.length = 0 then { audio with playingCh2 := false } else audio
    else audio
  let audio : GBAudio :=
    if GBAudioRegisterControlIsRestart (value <<< 8) then
      let audio : GBAudio := { audio with playingCh2 :=
        (audio.ch2.envelope.initialVolume != 0) || audio.ch2.envelope.direction }
      let audio : GBAudio := { audio with ch2.envelope.currentVolume :=
        (audio.ch2.envelope.initialVolume : Int) }
      let audio : GBAudio :=
        if audio.ch2.envelope.currentVolume > 0 then
          { audio with ch2.envelope.dead :=
              if audio.ch2.envelope.stepTime ≠ 0 then 0 else 1 }
        else
          { audio with ch2.envelope.dead :=
              if audio.ch2.envelope.stepTime ≠ 0 then 0 else 2 }
      let audio : GBAudio :=
        if audio.nextEvent = INT_MAX then { audio with eventDiff := 0 } else audio
      let audio : GBAudio :=
        if audio.playingCh2 then
          { audio with ch2.control.hi := !audio.ch2.control.hi }
        else audio
      let audio : GBAudio := { audio with nextCh2 := audio.eventDiff }
      let audio : GBAudio :=
        if audio.ch2.control.length = 0 then
          let audio : GBAudio := { audio with ch2.control.length := 64 }
          if audio.ch2.control.stop ∧ audio.frame % 2 = 0 then
            { audio with ch2.control.length := audio.ch2.control.length - 1 }
          else audio
        else audio
      _scheduleEvent audio
    else audio
  { audio with nr52 :=
      (audio.nr52 &&& 0xFD) ||| ((if audio.playingCh2 then 1 else 0) <<< 1) }

def GBAudioWriteNR30 (audio : GBAudio) (value : Nat) : GBAudio :=
  let audio : GBAudio := { audio with ch3.enable := GBAudioRegisterBankGetEnable value }
  if ¬audio.ch3.enable then
    { audio with playingCh3 := false, nr52 := audio.nr52 &&& 0xFB }
  else audio

def GBAudioWriteNR31 (audio : GBAudio) (value : Nat) : GBAudio :=
  { audio with ch3.length := 256 - value }

def GBAudioWriteNR32 (audio : GBAudio) (value : Nat) : GBAudio :=
  { audio with ch3.volume := GBAudioRegisterBankVolumeGetVolumeGB value }

def GBAudioWriteNR33 (audio : GBAudio) (value : Nat) : GBAudio :=
  { audio with ch3.rate :=
      (audio.ch3.rate &&& 0x700) ||| GBAudioRegisterControlGetRate value }

/-- `GBAudioWriteNR34`, rate/stop phase (`audio.c:256-265`): update the rate
low bits from `value << 8`, latch `stop`, and clock the length counter once
on a stop rising edge outside an even frame half. -/
def nr34UpdateRateStop (audio : GBAudio) (value : Nat) : GBAudio :=
  let audio : GBAudio := { audio with ch3.rate :=
    (audio.ch3.rate &&& 0xFF) ||| GBAudioRegisterControlGetRate (value <<< 8) }
  let wasStop := audio.ch3.stop
  let audio : GBAudio :=
    { audio with ch3.stop := GBAudioRegisterControlGetStop (value <<< 8) }
  if ¬wasStop ∧ audio.ch3.stop ∧ audio.ch3.length ≠ 0 ∧ audio.frame % 2 = 0 then
    let audio : GBAudio := { audio with ch3.length := audio.ch3.length - 1 }
    if audio.ch3.length = 0 then { audio with playingCh3 := false } else audio
  else audio

/-- `GBAudioWriteNR34`, restart phase (`audio.c:266-287`): on the restart
bit, start playing (if the wave channel is enabled), reload an expired
length counter, apply the DMG retrigger wave-RAM corruption, and zero the
window. -/
def nr34Restart (audio : GBAudio) (value : Nat) : GBAudio :=
  let wasEnable := audio.playingCh3
  if GBAudioRegisterControlIsRestart (value <<< 8) then
    let audio : GBAudio := { audio with playingCh3 := audio.ch3.enable }
    let audio : GBAudio :=
      if audio.ch3.length = 0 then
        let audio : GBAudio := { audio with ch3.length := 256 }
        if audio.ch3.stop ∧ audio.frame % 2 = 0 then
          { audio with ch3.length := audio.ch3.length - 1 }
        else audio
      else audio
    let audio : GBAudio :=
      if audio.style = GBAudioStyle.GB_AUDIO_DMG ∧ wasEnable ∧
          audio.playingCh3 ∧ audio.ch3.readable then
        if audio.ch3.window < 8 then
          { audio with ch3.wavedata :=
              (wave8set audio.ch3.wavedata 0
                (wave8get audio.ch3.wavedata (audio.ch3.window >>> 1))) }
        else
          -- `(window >> 1) & ~3`, written without a Nat complement
          let b : Nat := ((audio.ch3.window >>> 1) >>> 2) <<< 2
          let wd := audio.ch3.wavedata
          let wd := wave8set wd 0 (wave8get wd b)
          let wd := wave8set wd 1 (wave8get wd (b + 1))
          let wd := wave8set wd 2 (wave8get wd (b + 2))
          let wd := wave8set wd 3 (wave8get wd (b + 3))
          { audio with ch3.wavedata := wd }
      else audio
    { audio with ch3.window := 0 }
  else audio

/-- `GBAudioWriteNR34`, reschedule phase (`audio.c:288-296`): if the channel
is now playing, clear `readable` on DMG, re-base `nextEvent`, and schedule
the next wave step (including the unexplained +4 cycle delay). -/
def nr34Reschedule (audio : GBAudio) : GBAudio :=
  if audio.playingCh3 then
    let audio : GBAudio :=
      if audio.nextEvent = INT_MAX then { audio with eventDiff := 0 } else audio
    let audio : GBAudio :=
      { audio with ch3.readable := decide (audio.style ≠ GBAudioStyle.GB_AUDIO_DMG) }
    let audio := _scheduleEvent audio
    { audio with nextCh3 :=
        audio.eventDiff + audio.nextEvent + 4 + 2 * (2048 - (audio.ch3.rate : Int)) }
  else audio

/-- `GBAudioWriteNR34` (`audio.c:255-299`), as the composition of its three
phases followed by the NR52 status update. -/
def GBAudioWriteNR34 (audio : GBAudio) (value : Nat) : GBAudio :=
  let audio := nr34UpdateRateStop audio value
  let audio := nr34Restart audio value
  let audio := nr34Reschedule audio
  { audio with nr52 :=
      (audio.nr52 &&& 0xFB) ||| ((if audio.playingCh3 then 1 else 0) <<< 2) }

def GBAudioWriteNR41 (audio : GBAudio) (value : Nat) : GBAudio :=
  let audio : GBAudio := { audio with ch4.envelope := _writeDuty audio.ch4.envelope value }
  { audio with ch4.length := 64 - audio.ch4.envelope.length }

def GBAudioWriteNR42 (audio : GBAudio) (value : Nat) : GBAudio :=
  let r := _writeSweep audio.ch4.envelope value
  let audio : GBAudio := { audio with ch4.envelope := r.1 }
  if !r.2 then
    { audio with playingCh4 := false, nr52 := audio.nr52 &&& 0xF7 }
  else audio

def GBAudioWriteNR43 (audio : GBAudio) (value : Nat) : GBAudio :=
  { audio with
    ch4.ratio := GBAudioRegisterNoiseFeedbackGetRatio value
    ch4.frequency := GBAudioRegisterNoiseFeedbackGetFrequency value
    ch4.power := GBAudioRegisterNoiseFeedbackGetPower value }

def GBAudioWriteNR44 (audio : GBAudio) (value : Nat) : GBAudio :=
  let wasStop := audio.ch4.stop
  let audio : GBAudio := { audio with ch4.stop := GBAudioRegisterNoiseControlGetStop value }
  let audio : GBAudio :=
    if ¬wasStop ∧ audio.ch4.stop ∧ audio.ch4.length ≠ 0 ∧ audio.frame % 2 = 0 then
      let audio : GBAudio := { audio with ch4.length := audio.ch4.length - 1 }
      if audio.ch4.length = 0 then { audio with playingCh4 := false } else audio
    else audio
  let audio : GBAudio :=
    if GBAudioRegisterNoiseControlIsRestart value then
      let audio : GBAudio := { audio with playingCh4 :=
        (audio.ch4.envelope.initialVolume != 0) || audio.ch4.envelope.direction }
      let audio : GBAudio := { audio with ch4.envelope.currentVolume :=
        (audio.ch4.envelope.initialVolume : Int) }
      let audio : GBAudio :=
        if audio.ch4.envelope.currentVolume > 0 then
          { audio with ch4.envelope.dead :=
              if audio.ch4.envelope.stepTime ≠ 0 then 0 else 1 }
        else
          { audio with ch4.envelope.dead :=
              if audio.ch4.envelope.stepTime ≠ 0 then 0 else 2 }
      let audio : GBAudio :=
        if audio.ch4.power then
          { audio with ch4.lfsr := 0x40 }
        else
          { audio with ch4.lfsr := 0x4000 }
      let audio : GBAudio :=
        if audio.nextEvent = INT_MAX then { audio with eventDiff := 0 } else audio
      let audio : GBAudio := { audio with nextCh4 := audio.eventDiff }
      let audio : GBAudio :=
        if audio.ch4.length = 0 then
          let audio : GBAudio := { audio with ch4.length := 64 }
          if audio.ch4.stop ∧ audio.frame % 2 = 0 then
            { audio with ch4.length := audio.ch4.length - 1 }
          else audio
        else audio
      _scheduleEvent audio
    else audio
  { audio with nr52 :=
      (audio.nr52 &&& 0xF7) ||| ((if audio.playingCh4 then 1 else 0) <<< 3) }

def GBAudioWriteNR50 (audio : GBAudio) (value : Nat) : GBAudio :=
  { audio with
    volumeRight := GBRegisterNR50GetVolumeRight value
    volumeLeft := GBRegisterNR50GetVolumeLeft value }

def GBAudioWriteNR51 (audio : GBAudio) (value : Nat) : GBAudio :=
  { audio with
    ch1Right := GBRegisterNR51GetCh1Right value
    ch2Right := GBRegisterNR51GetCh2Right value
    ch3Right := GBRegisterNR51GetCh3Right value
    ch4Right := GBRegisterNR51GetCh4Right value
    ch1Left := GBRegisterNR51GetCh1Left value
    ch2Left := GBRegisterNR51GetCh2Left value
    ch3Left := GBRegisterNR51GetCh3Left value
    ch4Left := GBRegisterNR51GetCh4Left value }

def GBAudioWriteNR52 (audio : GBAudio) (value : Nat) : GBAudio :=
  let wasEnable := audio.enable
  let audio : GBAudio := { audio with enable := GBAudioEnableGetEnable value }
  if ¬audio.enable then
    let audio : GBAudio := { audio with
      playingCh1 := false
      playingCh2 := false
      playingCh3 := false
      playingCh4 := false }
    let audio := GBAudioWriteNR10 audio 0
    let audio := GBAudioWriteNR12 audio 0
    let audio := GBAudioWriteNR13 audio 0
    let audio := GBAudioWriteNR14 audio 0
    let audio := GBAudioWriteNR22 audio 0
    let audio := GBAudioWriteNR23 audio 0
    let audio := GBAudioWriteNR24 audio 0
    let audio := GBAudioWriteNR30 audio 0
    let audio := GBAudioWriteNR32 audio 0
    let audio := GBAudioWriteNR33 audio 0
    let audio := GBAudioWriteNR34 audio 0
    let audio := GBAudioWriteNR42 audio 0
    let audio := GBAudioWriteNR43 audio 0
    let audio := GBAudioWriteNR44 audio 0
    let audio := GBAudioWriteNR50 audio 0
    let audio := GBAudioWriteNR51 audio 0
    let audio : GBAudio :=
      if audio.style ≠ GBAudioStyle.GB_AUDIO_DMG then
        let audio := GBAudioWriteNR11 audio 0
        let audio := GBAudioWriteNR21 audio 0
        let audio := GBAudioWriteNR31 audio 0
        GBAudioWriteNR41 audio 0
      else audio
    let audio : GBAudio :=
      match audio.p with
      | some p =>
        let p : GBParent := { p with mem := { p.mem with
          nr10 := 0, nr11 := 0, nr12 := 0, nr13 := 0, nr14 := 0,
          nr21 := 0, nr22 := 0, nr23 := 0, nr24 := 0,
          nr30 := 0, nr31 := 0, nr32 := 0, nr33 := 0, nr34 := 0,
          nr42 := 0, nr43 := 0, nr44 := 0, nr50 := 0, nr51 := 0 } }
        let p : GBParent :=
          if audio.style ≠ GBAudioStyle.GB_AUDIO_DMG then
            { p with mem := { p.mem with nr11 := 0, nr21 := 0, nr31 := 0, nr41 := 0 } }
          else p
        { audio with p := some p }
      | none => audio
    { audio with nr52 := audio.nr52 &&& 0xF0 }
  else if ¬wasEnable then
    { audio with frame := 7 }
  else audio

/-! ## Audio: sampling and the event loop (`GBAudioProcessEvents`) -/

/-- The `while (audio->nextCh4 <= 0)` catch-up loop at the top of
`GBAudioSamplePSG`, with fuel (`none` = the loop would still be running). -/
def samplePSGCh4Loop : Nat → GBAudio → Option GBAudio
  | 0, audio => if audio.nextCh4 ≤ 0 then none else some audio
  | fuel + 1, audio =>
    if audio.nextCh4 ≤ 0 then
      let r := _updateChannel4 audio.ch4
      samplePSGCh4Loop fuel { audio with ch4 := r.1, nextCh4 := audio.nextCh4 + r.2 }
    else some audio

/-- `GBAudioSamplePSG`: catch channel 4 up, then mix the playing, routed,
not force-disabled channels into the left/right outputs scaled by
`1 + volume`. -/
def GBAudioSamplePSG (fuel : Nat) (audio : GBAudio) :
    Option (GBAudio × Int × Int) :=
  let audio? : Option GBAudio :=
    if audio.ch4.envelope.dead ≠ 2 then
      match samplePSGCh4Loop fuel audio with
      | none => none
      | some audio =>
        if audio.nextCh4 < audio.nextEvent then
          some { audio with nextEvent := audio.nextCh4 }
        else some audio
    else some audio
  match audio? with
  | none => none
  | some audio =>
    let sampleLeft : Int :=
      (if audio.playingCh1 ∧ ¬audio.forceDisableCh.getD 0 false ∧ audio.ch1Left
        then audio.ch1.sample else 0) +
      (if audio.playingCh2 ∧ ¬audio.forceDisableCh.getD 1 false ∧ audio.ch2Left
        then audio.ch2.sample else 0) +
      (if audio.playingCh3 ∧ ¬audio.forceDisableCh.getD 2 false ∧ audio.ch3Left
        then audio.ch3.sample else 0) +
      (if audio.playingCh4 ∧ ¬audio.forceDisableCh.getD 3 false ∧ audio.ch4Left
        then audio.ch4.sample else 0)
    let sampleRight : Int :=
      (if audio.playingCh1 ∧ ¬audio.forceDisableCh.getD 0 false ∧ audio.ch1Right
        then audio.ch1.sample else 0) +
      (if audio.playingCh2 ∧ ¬audio.forceDisableCh.getD 1 false ∧ audio.ch2Right
        then audio.ch2.sample else 0) +
      (if audio.playingCh3 ∧ ¬audio.forceDisableCh.getD 2 false ∧ audio.ch3Right
        then audio.ch3.sample else 0) +
      (if audio.playingCh4 ∧ ¬audio.forceDisableCh.getD 3 false ∧ audio.ch4Right
        then audio.ch4.sample else 0)
    some (audio,
      sampleLeft * (1 + (audio.volumeLeft : Int)),
      sampleRight * (1 + (audio.volumeRight : Int)))

/-- `_sample`: mix one output sample, push the delta pair into the blip
buffers, advance the blip clock, and hand the buffer state to the consumer
(`mCoreSyncProduceAudio` and the stream callbacks live outside this
repository and are recorded on the parent's logs).  `x >> 6` on the C `int`
product is floor division.  The `p = none` case is unreachable:
`GBAudioProcessEvents` only calls `_sample` under `if (audio->p)`. -/
def _sample (fuel : Nat) (audio : GBAudio) (cycles : Int) : Option GBAudio :=
  match GBAudioSamplePSG fuel audio with
  | none => none
  | some (audio, l, r) =>
    let sampleLeft : Int := l * audio.masterVolume / 64
    let sampleRight : Int := r * audio.masterVolume / 64
    match audio.p with
    | none => some audio
    | some p =>
      let audio : GBAudio :=
        if blip_samples_avail audio.left < audio.samples then
          let audio : GBAudio := { audio with
            left := blip_add_delta audio.left audio.clock (sampleLeft - audio.lastLeft)
            right := blip_add_delta audio.right audio.clock (sampleRight - audio.lastRight)
            lastLeft := sampleLeft
            lastRight := sampleRight }
          let audio : GBAudio := { audio with clock := audio.clock + cycles }
          if audio.clock ≥ CLOCKS_PER_BLIP_FRAME then
            { audio with
              left := blip_end_frame audio.left audio.clock
              right := blip_end_frame audio.right audio.clock
              clock := audio.clock - CLOCKS_PER_BLIP_FRAME }
          else audio
        else audio
      let produced := blip_samples_avail audio.left
      let p : GBParent :=
        if p.hasStream then { p with postAudioFrames := p.postAudioFrames + 1 } else p
      let wait : Bool := produced ≥ audio.samples
      let p : GBParent := { p with syncProduceLog := wait :: p.syncProduceLog }
      let p : GBParent :=
        if wait ∧ p.hasStream then
          { p with postAudioBuffers := p.postAudioBuffers + 1 }
        else p
      some { audio with p := some p }

/-- One iteration of the `while (audio->nextEvent <= 0)` loop body of
`GBAudioProcessEvents` (`audio.c:444-586`). -/
def audioLoopBody (fuel : Nat) (audio : GBAudio) : Option GBAudio :=
  let audio : GBAudio := { audio with nextEvent := INT_MAX }
  let audio? : Option GBAudio :=
    if audio.enable then
      let audio : GBAudio := { audio with nextFrame := audio.nextFrame - audio.eventDiff }
      let fr : GBAudio × Option Nat :=
        if audio.nextFrame ≤ 0 then
          let f := (audio.frame + 1) &&& 7
          let audio : GBAudio := { audio with frame := f }
          let audio : GBAudio := { audio with nextFrame := audio.nextFrame + FRAME_CYCLES }
          let audio : GBAudio :=
            if audio.nextFrame < audio.nextEvent then
              { audio with nextEvent := audio.nextFrame }
            else audio
          (audio, some f)
        else (audio, none)
      let audio := fr.1
      let frame := fr.2
      let audio : GBAudio :=
        if audio.playingCh1 then
          let audio : GBAudio := { audio with nextCh1 := audio.nextCh1 - audio.eventDiff }
          let audio : GBAudio :=
            if audio.ch1.envelope.dead = 0 ∧ frame = some 7 then
              let audio : GBAudio :=
                { audio with ch1.envelope.nextStep := audio.ch1.envelope.nextStep - 1 }
              if audio.ch1.envelope.nextStep = 0 then
                let sample : Int := (if audio.ch1.control.hi then 1 else 0) * 0x10 - 0x8
                let audio : GBAudio :=
                  { audio with ch1.envelope := _updateEnvelope audio.ch1.envelope }
                { audio with ch1.sample := sample * audio.ch1.envelope.currentVolume }
              else audio
            else audio
          let audio : GBAudio :=
            if audio.ch1.sweepEnable ∧ (∃ f, frame = some f ∧ f &&& 3 = 2) then
              let audio : GBAudio := { audio with ch1.sweepStep := audio.ch1.sweepStep - 1 }
              if audio.ch1.sweepStep = 0 then
                let r := _updateSweep audio.ch1 false
                { audio with ch1 := r.1, playingCh1 := r.2 }
              else audio
            else audio
          if audio.ch1.envelope.dead ≠ 2 then
            let audio : GBAudio :=
              if audio.nextCh1 ≤ 0 then
                let r := _updateChannel1 audio.ch1
                { audio with ch1 := r.1, nextCh1 := audio.nextCh1 + r.2 }
              else audio
            if audio.nextCh1 < audio.nextEvent then
              { audio with nextEvent := audio.nextCh1 }
            else audio
          else audio
        else audio
      let audio : GBAudio :=
        if audio.ch1.control.length ≠ 0 ∧ audio.ch1.control.stop ∧
            (∃ f, frame = some f ∧ f &&& 1 = 0) then
          let audio : GBAudio :=
            { audio with ch1.control.length := audio.ch1.control.length - 1 }
          if audio.ch1.control.length = 0 then { audio with playingCh1 := false } else audio
        else audio
      let audio : GBAudio :=
        if audio.playingCh2 then
          let audio : GBAudio := { audio with nextCh2 := audio.nextCh2 - audio.eventDiff }
          let audio : GBAudio :=
            if audio.ch2.envelope.dead = 0 ∧ frame = some 7 then
              let audio : GBAudio :=
                { audio with ch2.envelope.nextStep := audio.ch2.envelope.nextStep - 1 }
              if audio.ch2.envelope.nextStep = 0 then
                let sample : Int := (if audio.ch2.control.hi then 1 else 0) * 0x10 - 0x8
                let audio : GBAudio :=
                  { audio with ch2.envelope := _updateEnvelope audio.ch2.envelope }
                { audio with ch2.sample := sample * audio.ch2.envelope.currentVolume }
              else audio
            else audio
          if audio.ch2.envelope.dead ≠ 2 then
            let audio : GBAudio :=
              if audio.nextCh2 ≤ 0 then
                let r := _updateChannel2 audio.ch2
                { audio with ch2 := r.1, nextCh2 := audio.nextCh2 + r.2 }
              else audio
            if audio.nextCh2 < audio.nextEvent then
              { audio with nextEvent := audio.nextCh2 }
            else audio
          else audio
        else audio
      let audio : GBAudio :=
        if audio.ch2.control.length ≠ 0 ∧ audio.ch2.control.stop ∧
            (∃ f, frame = some f ∧ f &&& 1 = 0) then
          let audio : GBAudio :=
            { audio with ch2.control.length := audio.ch2.control.length - 1 }
          if audio.ch2.control.length = 0 then { audio with playingCh2 := false } else audio
        else audio
      let audio : GBAudio :=
        if audio.playingCh3 then
          let audio : GBAudio := { audio with
            nextCh3 := audio.nextCh3 - audio.eventDiff
            fadeCh3 := audio.fadeCh3 - audio.eventDiff }
          let audio : GBAudio :=
            if audio.fadeCh3 ≤ 0 then
              { audio with ch3.readable := false, fadeCh3 := INT_MAX }
            else audio
          let audio : GBAudio :=
            if audio.nextCh3 ≤ 0 then
              let audio : GBAudio :=
                if audio.style = GBAudioStyle.GB_AUDIO_DMG then
                  { audio with fadeCh3 := audio.nextCh3 + 2 }
                else audio
              let r := _updateChannel3 audio.ch3 audio.style
              let audio : GBAudio := { audio with ch3 := r.1, nextCh3 := audio.nextCh3 + r.2 }
              { audio with ch3.readable := true }
            else audio
          let audio : GBAudio :=
            if audio.fadeCh3 < audio.nextEvent then
              { audio with nextEvent := audio.fadeCh3 }
            else audio
          if audio.nextCh3 < audio.nextEvent then
            { audio with nextEvent := audio.nextCh3 }
          else audio
        else audio
      let audio : GBAudio :=
        if audio.ch3.length ≠ 0 ∧ audio.ch3.stop ∧
            (∃ f, frame = some f ∧ f &&& 1 = 0) then
          let audio : GBAudio := { audio with ch3.length := audio.ch3.length - 1 }
          if audio.ch3.length = 0 then { audio with playingCh3 := false } else audio
        else audio
      let audio : GBAudio :=
        if audio.playingCh4 then
          let audio : GBAudio := { audio with nextCh4 := audio.nextCh4 - audio.eventDiff }
          if audio.ch4.envelope.dead = 0 ∧ frame = some 7 then
            let audio : GBAudio :=
              { audio with ch4.envelope.nextStep := audio.ch4.envelope.nextStep - 1 }
            if audio.ch4.envelope.nextStep = 0 then
              let sample : Int := (if audio.ch4.sample < 0 then -1 else 0) * 0x8
              let audio : GBAudio :=
                { audio with ch4.envelope := _updateEnvelope audio.ch4.envelope }
              { audio with ch4.sample := sample * audio.ch4.envelope.currentVolume }
            else audio
          else audio
        else audio
      let audio : GBAudio :=
        if audio.ch4.length ≠ 0 ∧ audio.ch4.stop ∧
            (∃ f, frame = some f ∧ f &&& 1 = 0) then
          let audio : GBAudio := { audio with ch4.length := audio.ch4.length - 1 }
          if audio.ch4.length = 0 then { audio with playingCh4 := false } else audio
        else audio
      some audio
    else some audio
  match audio? with
  | none => none
  | some audio =>
    let audio : GBAudio := { audio with nr52 :=
      (audio.nr52 &&& 0xF0) |||
      (if audio.playingCh1 then 1 else 0) |||
      ((if audio.playingCh2 then 1 else 0) <<< 1) |||
      ((if audio.playingCh3 then 1 else 0) <<< 2) |||
      ((if audio.playingCh4 then 1 else 0) <<< 3) }
    match audio.p with
    | some _ =>
      let audio : GBAudio := { audio with nextSample := audio.nextSample - audio.eventDiff }
      let audio? : Option GBAudio :=
        if audio.nextSample ≤ 0 then
          match _sample fuel audio audio.sampleInterval with
          | none => none
          | some audio => some { audio with nextSample := audio.nextSample + audio.sampleInterval }
        else some audio
      match audio? with
      | none => none
      | some audio =>
        let audio : GBAudio :=
          if audio.nextSample < audio.nextEvent then
            { audio with nextEvent := audio.nextSample }
          else audio
        some { audio with eventDiff := 0 }
    | none => some { audio with eventDiff := 0 }

/-- The `while (audio->nextEvent <= 0)` loop, with fuel. -/
def audioLoop : Nat → GBAudio → Option (GBAudio × Int)
  | 0, audio => if audio.nextEvent ≤ 0 then none else some (audio, audio.nextEvent)
  | fuel + 1, audio =>
    if audio.nextEvent ≤ 0 then
      match audioLoopBody fuel audio with
      | none => none
      | some audio => audioLoop fuel audio
    else some (audio, audio.nextEvent)

/-- `GBAudioProcessEvents` (`audio.c:437-589`): early-out with `INT_MAX`
when unscheduled, else account the elapsed cycles and run the loop.  `fuel`
bounds the loop iterations (`none` = the C loop would still be running). -/
def GBAudioProcessEvents (fuel : Nat) (audio : GBAudio) (cycles : Int) :
    Option (GBAudio × Int) :=
  if audio.nextEvent = INT_MAX then
    some (audio, INT_MAX)
  else
    let audio : GBAudio := { audio with
      nextEvent := audio.nextEvent - cycles
      eventDiff := audio.eventDiff + cycles }
    audioLoop fuel audio

/-! ## Thread harness (`src/core/thread.c`) -/

/-- Modelled from the spec: `enum mCoreThreadState` is declared in
`thread.h`, which is not among the sources; §3/§4.4 fix the order
`INITIALIZED < RUNNING < INTERRUPTING < INTERRUPTED < PAUSING < PAUSED <
RUN_ON < RESETING < EXITING < CRASHED < SHUTDOWN`. -/
inductive MCoreThreadState where
  | THREAD_INITIALIZED
  | THREAD_RUNNING
  | THREAD_INTERRUPTING
  | THREAD_INTERRUPTED
  | THREAD_PAUSING
  | THREAD_PAUSED
  | THREAD_RUN_ON
  | THREAD_RESETING
  | THREAD_EXITING
  | THREAD_CRASHED
  | THREAD_SHUTDOWN
  deriving DecidableEq

/-- The C enum's integer value, used for the `<`/`>=` state comparisons. -/
def stateOrd : MCoreThreadState → Nat
  | .THREAD_INITIALIZED => 0
  | .THREAD_RUNNING => 1
  | .THREAD_INTERRUPTING => 2
  | .THREAD_INTERRUPTED => 3
  | .THREAD_PAUSING => 4
  | .THREAD_PAUSED => 5
  | .THREAD_RUN_ON => 6
  | .THREAD_RESETING => 7
  | .THREAD_EXITING => 8
  | .THREAD_CRASHED => 9
  | .THREAD_SHUTDOWN => 10

/-- The condition variables of a thread context and its sync block. -/
inductive MCond where
  | stateCond
  | videoFrameAvailableCond
  | videoFrameRequiredCond
  | audioRequiredCond
  deriving DecidableEq

/-- The `mCoreSync` fields the thread commands touch. -/
structure MCoreSync where
  videoFrameOn : Bool
  videoFrameWait : Bool
  audioWait : Bool
  deriving DecidableEq

/-- The `mCoreThread` fields the modelled commands touch.  `interruptDepth`
is the nesting counter (its C declaration is in the missing `thread.h`; the
spec §3 calls it a counter, modelled as `Nat`). -/
structure MCoreThread where
  state : MCoreThreadState
  savedState : MCoreThreadState
  interruptDepth : Nat
  sync : MCoreSync
  deriving DecidableEq

/-- Result of one externally-invoked thread command in the single-caller
model: the context as left behind (`none` = the C pointer was null and
nothing was touched), the condition variables woken so far, and whether the
call is parked in a condition-variable wait that only the worker thread can
release. -/
structure ThreadCmdResult where
  ctx : Option MCoreThread
  woken : List MCond
  blocked : Bool
  deriving DecidableEq

/-- `mCoreThreadIsActive`: `state >= THREAD_RUNNING && state < THREAD_EXITING`. -/
def mCoreThreadIsActive (threadContext : MCoreThread) : Bool :=
  decide (stateOrd .THREAD_RUNNING ≤ stateOrd threadContext.state ∧
    stateOrd threadContext.state < stateOrd .THREAD_EXITING)

/-- `mCoreThreadEnd` (`thread.c:240-257`): wait out an in-flight interrupt
(`_waitOnInterrupt`; in this single-caller model a wait that needs the
worker is reported as `blocked`), set EXITING, wake the state cond, then
drop both sync waits and wake the audio/video conds. -/
def mCoreThreadEnd (threadContext : MCoreThread) : ThreadCmdResult :=
  if threadContext.state = .THREAD_INTERRUPTED then
    { ctx := some threadContext, woken := [], blocked := true }
  else
    let threadContext : MCoreThread := { threadContext with state := .THREAD_EXITING }
    let threadContext : MCoreThread := { threadContext with sync.audioWait := false }
    let threadContext : MCoreThread := { threadContext with
      sync.videoFrameWait := false
      sync.videoFrameOn := false }
    { ctx := some threadContext
      woken := [.stateCond, .audioRequiredCond,
        .videoFrameRequiredCond, .videoFrameAvailableCond]
      blocked := false }

/-- `mCoreThreadInterrupt` (`thread.c:288-304`): null is a no-op; bump the
depth; nested or inactive returns immediately; otherwise save the state,
move to INTERRUPTING and wait for the worker (`_waitUntilNotState`, which
parks with `sync.videoFrameWait` cleared). -/
def mCoreThreadInterrupt (threadContext : Option MCoreThread) : ThreadCmdResult :=
  match threadContext with
  | none => { ctx := none, woken := [], blocked := false }
  | some threadContext =>
    let threadContext : MCoreThread :=
      { threadContext with interruptDepth := threadContext.interruptDepth + 1 }
    if threadContext.interruptDepth > 1 ∨ ¬mCoreThreadIsActive threadContext then
      { ctx := some threadContext, woken := [], blocked := false }
    else
      let threadContext : MCoreThread :=
        { threadContext with savedState := threadContext.state }
      if threadContext.state = .THREAD_INTERRUPTED then
        { ctx := some threadContext, woken := [], blocked := true }
      else
        let threadContext : MCoreThread :=
          { threadContext with state := .THREAD_INTERRUPTING }
        { ctx := some { threadContext with sync.videoFrameWait := false }
          woken := [.stateCond], blocked := true }

/-- `mCoreThreadContinue` (`thread.c:306-317`): null is a no-op; drop the
depth; at depth zero on an active thread restore `savedState` and wake. -/
def mCoreThreadContinue (threadContext : Option MCoreThread) : ThreadCmdResult :=
  match threadContext with
  | none => { ctx := none, woken := [], blocked := false }
  | some threadContext =>
    let threadContext : MCoreThread :=
      { threadContext with interruptDepth := threadContext.interruptDepth - 1 }
    if threadContext.interruptDepth < 1 ∧ mCoreThreadIsActive threadContext then
      { ctx := some { threadContext with state := threadContext.savedState }
        woken := [.stateCond], blocked := false }
    else
      { ctx := some threadContext, woken := [], blocked := false }

/-! ## Baseline concrete states for the witnesses -/

def memRegsZero : GBMemRegs :=
  { nr10 := 0, nr11 := 0, nr12 := 0, nr13 := 0, nr14 := 0,
    nr21 := 0, nr22 := 0, nr23 := 0, nr24 := 0,
    nr30 := 0, nr31 := 0, nr32 := 0, nr33 := 0, nr34 := 0,
    nr41 := 0, nr42 := 0, nr43 := 0, nr44 := 0, nr50 := 0, nr51 := 0 }

def parentZero : GBParent :=
  { mem := memRegsZero, cpuCycles := 0, cpuNextEvent := 0, doubleSpeed := 0,
    hasStream := false, syncProduceLog := [], postAudioFrames := 0,
    postAudioBuffers := 0 }

def envelopeZero : GBAudioEnvelope :=
  { length := 0, duty := 0, stepTime := 0, direction := false,
    initialVolume := 0, currentVolume := 0, nextStep := 0, dead := 0 }

def squareControlZero : GBAudioSquareControl :=
  { frequency := 0, length := 0, hi := false, stop := false }

def ch1Zero : GBAudioChannel1 :=
  { shift := 0, time := 0, direction := false, sweepStep := 0,
    sweepEnable := false, sweepOccurred := false, realFrequency := 0,
    envelope := envelopeZero, control := squareControlZero, sample := 0 }

def ch2Zero : GBAudioChannel2 :=
  { envelope := envelopeZero, control := squareControlZero, sample := 0 }

def ch3Zero : GBAudioChannel3 :=
  { bank := 0, size := 0, enable := false, length := 0, volume := 0,
    rate := 0, stop := false, window := 0, readable := false,
    wavedata := List.replicate 32 0, sample := 0 }

def ch4Zero : GBAudioChannel4 :=
  { envelope := envelopeZero, ratio := 0, frequency := 0, power := false,
    stop := false, length := 0, lfsr := 0, sample := 0 }

def blipZero : Blip := { avail := 0, deltas := [], frames := [] }

def audioZero : GBAudio :=
  { p := none, nr52 := 0, style := GBAudioStyle.GB_AUDIO_DMG, samples := 0,
    left := blipZero, right := blipZero,
    forceDisableCh := [false, false, false, false], masterVolume := 256,
    enable := false, nextEvent := 0, eventDiff := 0, nextFrame := 0,
    frame := 0, nextCh1 := 0, nextCh2 := 0, nextCh3 := 0, fadeCh3 := 0,
    nextCh4 := 0, nextSample := 0, sampleInterval := 128, lastLeft := 0,
    lastRight := 0, clock := 0, volumeRight := 0, volumeLeft := 0,
    ch1Right := false, ch2Right := false, ch3Right := false,
    ch4Right := false, ch1Left := false, ch2Left := false,
    ch3Left := false, ch4Left := false, playingCh1 := false,
    playingCh2 := false, playingCh3 := false, playingCh4 := false,
    ch1 := ch1Zero, ch2 := ch2Zero, ch3 := ch3Zero, ch4 := ch4Zero }

/-- Concrete DMG audio state used to exercise `GBAudioWriteNR52`'s disable
path: nonzero length bytes NR11/NR41 in the memory-mapped registers. -/
def nr52CexAudio : GBAudio :=
  { audioZero with
    style := GBAudioStyle.GB_AUDIO_DMG
    enable := true
    p := some { parentZero with mem := { memRegsZero with nr11 := 5, nr41 := 7 } } }

/-- Concrete DMG audio state for the NR34 re-trigger corruption: channel 3
playing and readable with the window at sample 9 and distinct wave bytes. -/
def c7Audio : GBAudio :=
  { audioZero with
    enable := true
    playingCh3 := true
    ch3 := { ch3Zero with
               enable := true, readable := true, window := 9,
               wavedata := List.range 32 } }

/-- Concrete running thread context for the thread-command witnesses. -/
def threadRunning : MCoreThread :=
  { state := .THREAD_RUNNING, savedState := .THREAD_INITIALIZED,
    interruptDepth := 0,
    sync := { videoFrameOn := true, videoFrameWait := true, audioWait := true } }

/-- Concrete not-yet-started thread context (INITIALIZED is not active). -/
def threadInit : MCoreThread :=
  { threadRunning with state := .THREAD_INITIALIZED }

/-- The context `mCoreThreadEnd` leaves behind on the non-INTERRUPTED path. -/
def endedCtx (t : MCoreThread) : MCoreThread :=
  { t with
    state := .THREAD_EXITING, sync.audioWait := false,
    sync.videoFrameWait := false, sync.videoFrameOn := false }

/-! ## Theorems -/

/-- C1: when the decremented `next_event` is ≤ 0, TIMA is enabled, the
decremented `next_tima` is ≤ 0 and the incremented TIMA byte wraps to 0,
`GBTimerProcessEvents` loads TIMA from TMA, sets the TIMER IRQ bit in IF,
invokes the CPU's `GBUpdateIRQs`, resets `next_tima` to `tima_period`, and
returns `min next_div next_tima` as `next_event`. -/
theorem GBTimerProcessEvents_tima_overflow (timer : GBTimer) (cycles : Int)
    (hfire : timer.nextEvent - cycles ≤ 0)
    (hen : timer.nextTima ≠ INT_MAX)
    (htima : timer.nextTima - (timer.eventDiff + cycles) ≤ 0)
    (hwrap : (timer.mem.tima + 1) % 256 = 0) :
    (GBTimerProcessEvents timer cycles).1.mem.tima = timer.mem.tma ∧
    (GBTimerProcessEvents timer cycles).1.mem.iflags
      = timer.mem.iflags ||| (1 <<< GB_IRQ_TIMER) ∧
    (GBTimerProcessEvents timer cycles).1.mem.irqUpdates
      = timer.mem.irqUpdates + 1 ∧
    (GBTimerProcessEvents timer cycles).1.nextTima = timer.timaPeriod ∧
    (GBTimerProcessEvents timer cycles).2
      = min (GBTimerProcessEvents timer cycles).1.nextDiv
          (GBTimerProcessEvents timer cycles).1.nextTima ∧
    (GBTimerProcessEvents timer cycles).2
      = (GBTimerProcessEvents timer cycles).1.nextEvent := by
  unfold GBTimerProcessEvents
  dsimp only
  split_ifs <;>
    simp_all [min_def] <;> omega

/-- Witness for C1 at a concrete input. -/
theorem GBTimerProcessEvents_tima_overflow_witness :
    (GBTimerProcessEvents
      { nextDiv := 100, nextTima := 10, nextEvent := 10, eventDiff := 0,
        timaPeriod := 16,
        mem := { div := 0, tima := 255, tma := 42, iflags := 0,
                  irqUpdates := 0, timaIncrements := 0 } } 10).1.mem.tima = 42 :=
  (GBTimerProcessEvents_tima_overflow
    { nextDiv := 100, nextTima := 10, nextEvent := 10, eventDiff := 0,
      timaPeriod := 16,
      mem := { div := 0, tima := 255, tma := 42, iflags := 0,
               irqUpdates := 0, timaIncrements := 0 } } 10
    (by decide) (by decide) (by decide) (by decide)).1

/-- C2, counterexample: the claim quantifies over *every* timer state, but on
a state that does not already satisfy the deadline invariant (here
`next_event = 10 > next_div = 5`) a call that does not fire the event
(`cycles = 0`) returns `next_event = 10 > next_div = 5`. -/
theorem GBTimerProcessEvents_invariant_counterexample :
    ¬((GBTimerProcessEvents
        { nextDiv := 5, nextTima := INT_MAX, nextEvent := 10, eventDiff := 0,
          timaPeriod := 1024,
          mem := { div := 0, tima := 0, tma := 0, iflags := 0,
                   irqUpdates := 0, timaIncrements := 0 } } 0).2
      ≤ (GBTimerProcessEvents
        { nextDiv := 5, nextTima := INT_MAX, nextEvent := 10, eventDiff := 0,
          timaPeriod := 1024,
          mem := { div := 0, tima := 0, tma := 0, iflags := 0,
                   irqUpdates := 0, timaIncrements := 0 } } 0).1.nextDiv) := by
  decide

/-- C2, amended: the deadline invariant `next_event ≤ next_div ∧ (TIMA
enabled → next_event ≤ next_tima)` is *preserved* by `GBTimerProcessEvents`
for any nonnegative delta (and `GBTimerReset` establishes it), and the
returned value is the new `next_event`. -/
theorem GBTimerProcessEvents_invariant (timer : GBTimer) (cycles : Int)
    (hcyc : 0 ≤ cycles)
    (hdiv : timer.nextEvent ≤ timer.nextDiv)
    (htima : timer.nextTima ≠ INT_MAX → timer.nextEvent ≤ timer.nextTima) :
    ((GBTimerProcessEvents timer cycles).1.nextEvent
        ≤ (GBTimerProcessEvents timer cycles).1.nextDiv ∧
      ((GBTimerProcessEvents timer cycles).1.nextTima ≠ INT_MAX →
        (GBTimerProcessEvents timer cycles).1.nextEvent
          ≤ (GBTimerProcessEvents timer cycles).1.nextTima) ∧
      (GBTimerProcessEvents timer cycles).2
        = (GBTimerProcessEvents timer cycles).1.nextEvent) ∧
    (GBTimerReset timer).nextEvent ≤ (GBTimerReset timer).nextDiv ∧
    ((GBTimerReset timer).nextTima ≠ INT_MAX →
      (GBTimerReset timer).nextEvent ≤ (GBTimerReset timer).nextTima) := by
  refine ⟨?_, le_refl _, fun h => absurd rfl h⟩
  rcases em (timer.nextTima = INT_MAX) with hT | hT
  · unfold GBTimerProcessEvents
    dsimp only
    split_ifs <;> simp_all <;> omega
  · have htima' := htima hT
    unfold GBTimerProcessEvents
    dsimp only
    split_ifs <;> simp_all <;> omega

/-- Witness for C2's amended theorem at a concrete input. -/
theorem GBTimerProcessEvents_invariant_witness :
    ((GBTimerProcessEvents
        { nextDiv := 256, nextTima := 16, nextEvent := 16, eventDiff := 0,
          timaPeriod := 16,
          mem := { div := 0, tima := 0, tma := 0, iflags := 0,
                    irqUpdates := 0, timaIncrements := 0 } } 16).1.nextEvent
      ≤ (GBTimerProcessEvents
        { nextDiv := 256, nextTima := 16, nextEvent := 16, eventDiff := 0,
          timaPeriod := 16,
          mem := { div := 0, tima := 0, tma := 0, iflags := 0,
                    irqUpdates := 0, timaIncrements := 0 } } 16).1.nextDiv) :=
  (GBTimerProcessEvents_invariant
    { nextDiv := 256, nextTima := 16, nextEvent := 16, eventDiff := 0,
      timaPeriod := 16,
      mem := { div := 0, tima := 0, tma := 0, iflags := 0,
               irqUpdates := 0, timaIncrements := 0 } } 16
    (by decide) (by decide) (fun _ => by decide)).1.1

theorem timerSchedStep_inv (P : Int) (hP1 : 0 < P) (hP2 : P < INT_MAX)
    (t : GBTimer) (h : TimerSchedInv P t) :
    TimerSchedInv P (timerSchedStep t) ∧
    ((timerSchedStep t).mem.timaIncrements = t.mem.timaIncrements ∧
        t.nextEvent + (timerSchedStep t).nextTima = t.nextTima ∨
      (timerSchedStep t).mem.timaIncrements = t.mem.timaIncrements + 1 ∧
        t.nextEvent + (timerSchedStep t).nextTima = t.nextTima + P) := by
  obtain ⟨h1, h2, h3, h4, h5, h6, h7, h8, h9⟩ := h
  unfold timerSchedStep GBTimerProcessEvents TimerSchedInv
  dsimp only
  split_ifs <;> simp_all <;> omega


theorem timerSchedRun_inv (P : Int) (hP1 : 0 < P) (hP2 : P < INT_MAX) :
    ∀ (k : Nat) (t : GBTimer), TimerSchedInv P t →
      TimerSchedInv P (timerSchedRun k t) ∧
      timerSchedElapsed k t + (timerSchedRun k t).nextTima
        = t.nextTima +
          (((timerSchedRun k t).mem.timaIncrements : Int)
            - (t.mem.timaIncrements : Int)) * P := by
  intro k
  induction k with
  | zero =>
    intro t h
    exact ⟨h, by simp [timerSchedRun, timerSchedElapsed]⟩
  | succ k ih =>
    intro t h
    obtain ⟨hstep, hacc⟩ := timerSchedStep_inv P hP1 hP2 t h
    obtain ⟨hrun, heq⟩ := ih (timerSchedStep t) hstep
    refine ⟨hrun, ?_⟩
    simp only [timerSchedRun, timerSchedElapsed]
    rcases hacc with ⟨hc, he⟩ | ⟨hc, he⟩ <;> rw [hc] at heq <;>
      push_cast at heq ⊢ <;> linear_combination heq + he

/-- C3, amended: over scheduler-driven call sequences — each call's delta is
exactly the pending `next_event`, which is how the CPU drives the timer —
starting in phase with TIMA enabled at a fixed `tima_period`, the number of
TIMA increment events (`next_tima` expiries) over `N` elapsed cycles is
within 1 of `⌊N / tima_period⌋`. -/
theorem timerSchedRun_tima_count (P : Int) (t : GBTimer) (k : Nat)
    (hP1 : 0 < P) (hP2 : P < INT_MAX)
    (hinv : TimerSchedInv P t) (hc0 : t.mem.timaIncrements = 0) :
    ((((timerSchedRun k t).mem.timaIncrements : Int))
        - timerSchedElapsed k t / P).natAbs ≤ 1 := by
  obtain ⟨hrun, heq⟩ := timerSchedRun_inv P hP1 hP2 k t hinv
  rw [hc0] at heq
  push_cast at heq
  obtain ⟨hT1, hT2, _, _, _, _, _, _, _⟩ := hrun
  obtain ⟨hs1, hs2, _⟩ := hinv
  have hdiv := Int.ediv_add_emod (timerSchedElapsed k t) P
  have hr0 : 0 ≤ timerSchedElapsed k t % P :=
    Int.emod_nonneg _ (ne_of_gt hP1)
  have hrP : timerSchedElapsed k t % P < P := Int.emod_lt_of_pos _ hP1
  set c : Int := ((timerSchedRun k t).mem.timaIncrements : Int) with hc
  set q : Int := timerSchedElapsed k t / P with hq
  have key : P * (c - q) =
      timerSchedElapsed k t % P + (timerSchedRun k t).nextTima - t.nextTima := by
    linear_combination -heq - hdiv
  have h1 : P * (c - q) < P * 2 := by rw [key]; nlinarith
  have h2 : P * (-1) < P * (c - q) := by rw [key]; nlinarith
  have h1' := (mul_lt_mul_left hP1).mp h1
  have h2' := (mul_lt_mul_left hP1).mp h2
  omega

/-- Witness for C3's amended theorem at a concrete input. -/
theorem timerSchedRun_tima_count_witness :
    ((((timerSchedRun 5
        { nextDiv := 256, nextTima := 16, nextEvent := 16, eventDiff := 0,
          timaPeriod := 16,
          mem := { div := 0, tima := 0, tma := 0, iflags := 0,
                   irqUpdates := 0, timaIncrements := 0 } }).mem.timaIncrements : Int))
      - timerSchedElapsed 5
        { nextDiv := 256, nextTima := 16, nextEvent := 16, eventDiff := 0,
          timaPeriod := 16,
          mem := { div := 0, tima := 0, tma := 0, iflags := 0,
                   irqUpdates := 0, timaIncrements := 0 } } / 16).natAbs ≤ 1 :=
  timerSchedRun_tima_count 16
    { nextDiv := 256, nextTima := 16, nextEvent := 16, eventDiff := 0,
      timaPeriod := 16,
      mem := { div := 0, tima := 0, tma := 0, iflags := 0,
               irqUpdates := 0, timaIncrements := 0 } } 5
    (by decide) (by decide) (by decide) (by decide)

/-- C3, counterexample: the claim quantifies over *every* call sequence, but
`GBTimerProcessEvents` resets `next_tima = tima_period` instead of carrying
the overshoot forward, so a single call spanning 1024 cycles with
`tima_period = 16` produces exactly 1 TIMA increment where the claim demands
`⌊1024/16⌋ = 64` plus or minus 1. -/
theorem timerSchedRun_tima_count_counterexample :
    (GBTimerProcessEvents
        { nextDiv := 256, nextTima := 16, nextEvent := 16, eventDiff := 0,
          timaPeriod := 16,
          mem := { div := 0, tima := 0, tma := 0, iflags := 0,
                    irqUpdates := 0, timaIncrements := 0 } } 1024).1.mem.timaIncrements = 1 ∧
    (1024 : Int) / 16 = 64 ∧
    ¬((((1 : Int)) - (1024 : Int) / 16).natAbs ≤ 1) := by
  decide

/-! ## Envelope claims -/

theorem envelopeFrameTick_of_dead (e : GBAudioEnvelope) (h : e.dead ≠ 0) :
    envelopeFrameTick e = e := by
  unfold envelopeFrameTick
  rw [if_neg h]

theorem envelopeFrameTick_range (e : GBAudioEnvelope)
    (h0 : 0 ≤ e.currentVolume) (h15 : e.currentVolume ≤ 15) :
    0 ≤ (envelopeFrameTick e).currentVolume ∧
      (envelopeFrameTick e).currentVolume ≤ 15 := by
  unfold envelopeFrameTick _updateEnvelope
  dsimp only
  split_ifs <;> simp_all <;> omega

/-- C5, counterexample: on the reachable envelope state `currentVolume = 15`,
`direction` up, `dead = 0` (NRx4 restart with `initial_volume = 15` and a
nonzero `step_time` produces it), the acting tick leaves `current_volume`
at 15 — it does not "adjust by plus one". -/
theorem envelope_tick_counterexample :
    (envelopeFrameTick
      { length := 0, duty := 0, stepTime := 3, direction := true,
        initialVolume := 15, currentVolume := 15, nextStep := 1,
        dead := 0 }).currentVolume = 15 ∧
    ¬((envelopeFrameTick
      { length := 0, duty := 0, stepTime := 3, direction := true,
        initialVolume := 15, currentVolume := 15, nextStep := 1,
        dead := 0 }).currentVolume = 15 + 1) := by
  decide

/-- C5, amended: over every envelope tick sequence, `current_volume` stays in
[0, 15]; once `dead ∈ {1, 2}`, ticks no longer modify the envelope; an acting
tick (`dead = 0`, `next_step` hitting 0) moves `current_volume` by ±1
*saturated to [0, 15]*, setting `dead = 1` on reaching 15 and `dead = 2` on
reaching 0; a non-acting tick leaves volume and `dead` unchanged. -/
theorem envelope_tick_invariants :
    (∀ (n : Nat) (e : GBAudioEnvelope),
      0 ≤ e.currentVolume → e.currentVolume ≤ 15 →
      0 ≤ (envelopeFrameTicks n e).currentVolume ∧
        (envelopeFrameTicks n e).currentVolume ≤ 15) ∧
    (∀ (n : Nat) (e : GBAudioEnvelope), e.dead = 1 ∨ e.dead = 2 →
      envelopeFrameTicks n e = e) ∧
    (∀ e : GBAudioEnvelope, e.dead = 0 → e.nextStep = 1 →
      0 ≤ e.currentVolume → e.currentVolume ≤ 15 →
      (envelopeFrameTick e).currentVolume =
        (if e.direction then min (e.currentVolume + 1) 15
         else max (e.currentVolume - 1) 0) ∧
      (envelopeFrameTick e).dead =
        (if e.direction then (if 14 ≤ e.currentVolume then 1 else 0)
         else (if e.currentVolume ≤ 1 then 2 else 0))) ∧
    (∀ e : GBAudioEnvelope, e.dead = 0 → e.nextStep ≠ 1 →
      (envelopeFrameTick e).currentVolume = e.currentVolume ∧
      (envelopeFrameTick e).dead = e.dead) := by
  refine ⟨?_, ?_, ?_, ?_⟩
  · intro n
    induction n with
    | zero => intro e h0 h15; exact ⟨h0, h15⟩
    | succ n ih =>
      intro e h0 h15
      obtain ⟨g0, g15⟩ := envelopeFrameTick_range e h0 h15
      exact ih (envelopeFrameTick e) g0 g15
  · intro n
    induction n with
    | zero => intro e _; rfl
    | succ n ih =>
      intro e h
      have hne : e.dead ≠ 0 := by omega
      show envelopeFrameTicks n (envelopeFrameTick e) = e
      rw [envelopeFrameTick_of_dead e hne]
      exact ih e h
  · intro e hdead hstep h0 h15
    unfold envelopeFrameTick _updateEnvelope
    dsimp only
    split_ifs <;> simp_all <;> omega
  · intro e hdead hstep
    unfold envelopeFrameTick
    dsimp only
    split_ifs <;> simp_all
    omega

/-- Witness for C5's amended theorem at concrete inputs. -/
theorem envelope_tick_invariants_witness :
    (0 ≤ (envelopeFrameTicks 3 { envelopeZero with
        currentVolume := 7, stepTime := 1, nextStep := 1,
        direction := false }).currentVolume ∧
      (envelopeFrameTicks 3 { envelopeZero with
        currentVolume := 7, stepTime := 1, nextStep := 1,
        direction := false }).currentVolume ≤ 15) ∧
    envelopeFrameTicks 4 { envelopeZero with currentVolume := 9, dead := 2 }
      = { envelopeZero with currentVolume := 9, dead := 2 } :=
  ⟨envelope_tick_invariants.1 3 _ (by decide) (by decide),
   envelope_tick_invariants.2.1 4 _ (Or.inr rfl)⟩

/-! ## Noise LFSR period -/

theorem lfsrIter_add (p : Bool) (m n : Nat) (x : Nat) :
    lfsrIter p (m + n) x = lfsrIter p m (lfsrIter p n x) := by
  unfold lfsrIter
  exact Function.iterate_add_apply _ m n x

theorem lfsrIter_chain (p : Bool) (m n k x y z : Nat) (hk : m + n = k)
    (h1 : lfsrIter p n x = y) (h2 : lfsrIter p m y = z) :
    lfsrIter p k x = z := by
  subst hk
  rw [lfsrIter_add, h1, h2]

theorem lfsr15_period_facts :
    lfsrIter false 32767 16384 = 16384 ∧
    lfsrIter false 4681 16384 = 9780 ∧
    lfsrIter false 1057 16384 = 1824 ∧
    lfsrIter false 217 16384 = 32554 := by
  have c1 : lfsrIter false 512 16384 = 4160 := by decide
  have c2 : lfsrIter false 512 4160 = 13312 := by decide
  have c3 : lfsrIter false 512 13312 = 3380 := by decide
  have c4 : lfsrIter false 512 3380 = 5184 := by decide
  have c5 : lfsrIter false 512 5184 = 13572 := by decide
  have c6 : lfsrIter false 512 13572 = 3700 := by decide
  have c7 : lfsrIter false 512 3700 = 9363 := by decide
  have c8 : lfsrIter false 512 9363 = 13376 := by decide
  have c9 : lfsrIter false 512 13376 = 15652 := by decide
  have c10 : lfsrIter false 512 15652 = 5236 := by decide
  have c11 : lfsrIter false 512 5236 = 8713 := by decide
  have c12 : lfsrIter false 512 8713 = 15968 := by decide
  have c13 : lfsrIter false 512 15968 = 10150 := by decide
  have c14 : lfsrIter false 512 10150 = 4942 := by decide
  have c15 : lfsrIter false 512 4942 = 20544 := by decide
  have c16 : lfsrIter false 512 20544 = 9280 := by decide
  have c17 : lfsrIter false 512 9280 = 14644 := by decide
  have c18 : lfsrIter false 512 14644 = 6516 := by decide
  have c19 : lfsrIter false 512 6516 = 8516 := by decide
  have c20 : lfsrIter false 512 8516 = 15216 := by decide
  have c21 : lfsrIter false 512 15216 = 10983 := by decide
  have c22 : lfsrIter false 512 10983 = 4307 := by decide
  have c23 : lfsrIter false 512 4307 = 2404 := by decide
  have c24 : lfsrIter false 512 2404 = 10576 := by decide
  have c25 : lfsrIter false 512 10576 = 13949 := by decide
  have c26 : lfsrIter false 512 13949 = 7273 := by decide
  have c27 : lfsrIter false 512 7273 = 6598 := by decide
  have c28 : lfsrIter false 512 6598 = 13544 := by decide
  have c29 : lfsrIter false 512 13544 = 17166 := by decide
  have c30 : lfsrIter false 512 17166 = 29696 := by decide
  have c31 : lfsrIter false 512 29696 = 7540 := by decide
  have c32 : lfsrIter false 512 7540 = 8256 := by decide
  have c33 : lfsrIter false 512 8256 = 14384 := by decide
  have c34 : lfsrIter false 512 14384 = 6708 := by decide
  have c35 : lfsrIter false 512 6708 = 4503 := by decide
  have c36 : lfsrIter false 512 4503 = 14900 := by decide
  have c37 : lfsrIter false 512 14900 = 6583 := by decide
  have c38 : lfsrIter false 512 6583 = 8244 := by decide
  have c39 : lfsrIter false 512 8244 = 7981 := by decide
  have c40 : lfsrIter false 512 7981 = 10772 := by decide
  have c41 : lfsrIter false 512 10772 = 1455 := by decide
  have c42 : lfsrIter false 512 1455 = 11566 := by decide
  have c43 : lfsrIter false 512 11566 = 30694 := by decide
  have c44 : lfsrIter false 512 30694 = 14094 := by decide
  have c45 : lfsrIter false 512 14094 = 26996 := by decide
  have c46 : lfsrIter false 512 26996 = 15668 := by decide
  have c47 : lfsrIter false 512 15668 = 6256 := by decide
  have c48 : lfsrIter false 512 6256 = 8708 := by decide
  have c49 : lfsrIter false 512 8708 = 2979 := by decide
  have c50 : lfsrIter false 512 2979 = 11171 := by decide
  have c51 : lfsrIter false 512 11171 = 9091 := by decide
  have c52 : lfsrIter false 512 9091 = 14723 := by decide
  have c53 : lfsrIter false 512 14723 = 16153 := by decide
  have c54 : lfsrIter false 512 16153 = 13625 := by decide
  have c55 : lfsrIter false 512 13625 = 12219 := by decide
  have c56 : lfsrIter false 512 12219 = 10369 := by decide
  have c57 : lfsrIter false 512 10369 = 23240 := by decide
  have c58 : lfsrIter false 512 23240 = 16616 := by decide
  have c59 : lfsrIter false 512 16616 = 24186 := by decide
  have c60 : lfsrIter false 512 24186 = 21568 := by decide
  have c61 : lfsrIter false 512 21568 = 9540 := by decide
  have c62 : lfsrIter false 512 9540 = 14964 := by decide
  have c63 : lfsrIter false 512 14964 = 10663 := by decide
  have cF : lfsrIter false 511 10663 = 16384 := by decide
  have d73 : lfsrIter false 73 15652 = 9780 := by decide
  have d33 : lfsrIter false 33 13312 = 1824 := by decide
  have d217 : lfsrIter false 217 16384 = 32554 := by decide
  have t1 : lfsrIter false 512 16384 = 4160 := c1
  have t2 : lfsrIter false 1024 16384 = 13312 := lfsrIter_chain false 512 512 1024 16384 4160 13312 (by norm_num) t1 c2
  have t3 : lfsrIter false 1536 16384 = 3380 := lfsrIter_chain false 512 1024 1536 16384 13312 3380 (by norm_num) t2 c3
  have t4 : lfsrIter false 2048 16384 = 5184 := lfsrIter_chain false 512 1536 2048 16384 3380 5184 (by norm_num) t3 c4
  have t5 : lfsrIter false 2560 16384 = 13572 := lfsrIter_chain false 512 2048 2560 16384 5184 13572 (by norm_num) t4 c5
  have t6 : lfsrIter false 3072 16384 = 3700 := lfsrIter_chain false 512 2560 3072 16384 13572 3700 (by norm_num) t5 c6
  have t7 : lfsrIter false 3584 16384 = 9363 := lfsrIter_chain false 512 3072 3584 16384 3700 9363 (by norm_num) t6 c7
  have t8 : lfsrIter false 4096 16384 = 13376 := lfsrIter_chain false 512 3584 4096 16384 9363 13376 (by norm_num) t7 c8
  have t9 : lfsrIter false 4608 16384 = 15652 := lfsrIter_chain false 512 4096 4608 16384 13376 15652 (by norm_num) t8 c9
  have t10 : lfsrIter false 5120 16384 = 5236 := lfsrIter_chain false 512 4608 5120 16384 15652 5236 (by norm_num) t9 c10
  have t11 : lfsrIter false 5632 16384 = 8713 := lfsrIter_chain false 512 5120 5632 16384 5236 8713 (by norm_num) t10 c11
  have t12 : lfsrIter false 6144 16384 = 15968 := lfsrIter_chain false 512 5632 6144 16384 8713 15968 (by norm_num) t11 c12
  have t13 : lfsrIter false 6656 16384 = 10150 := lfsrIter_chain false 512 6144 6656 16384 15968 10150 (by norm_num) t12 c13
  have t14 : lfsrIter false 7168 16384 = 4942 := lfsrIter_chain false 512 6656 7168 16384 10150 4942 (by norm_num) t13 c14
  have t15 : lfsrIter false 7680 16384 = 20544 := lfsrIter_chain false 512 7168 7680 16384 4942 20544 (by norm_num) t14 c15
  have t16 : lfsrIter false 8192 16384 = 9280 := lfsrIter_chain false 512 7680 8192 16384 20544 9280 (by norm_num) t15 c16
  have t17 : lfsrIter false 8704 16384 = 14644 := lfsrIter_chain false 512 8192 8704 16384 9280 14644 (by norm_num) t16 c17
  have t18 : lfsrIter false 9216 16384 = 6516 := lfsrIter_chain false 512 8704 9216 16384 14644 6516 (by norm_num) t17 c18
  have t19 : lfsrIter false 9728 16384 = 8516 := lfsrIter_chain false 512 9216 9728 16384 6516 8516 (by norm_num) t18 c19
  have t20 : lfsrIter false 10240 16384 = 15216 := lfsrIter_chain false 512 9728 10240 16384 8516 15216 (by norm_num) t19 c20
  have t21 : lfsrIter false 10752 16384 = 10983 := lfsrIter_chain false 512 10240 10752 16384 15216 10983 (by norm_num) t20 c21
  have t22 : lfsrIter false 11264 16384 = 4307 := lfsrIter_chain false 512 10752 11264 16384 10983 4307 (by norm_num) t21 c22
  have t23 : lfsrIter false 11776 16384 = 2404 := lfsrIter_chain false 512 11264 11776 16384 4307 2404 (by norm_num) t22 c23
  have t24 : lfsrIter false 12288 16384 = 10576 := lfsrIter_chain false 512 11776 12288 16384 2404 10576 (by norm_num) t23 c24
  have t25 : lfsrIter false 12800 16384 = 13949 := lfsrIter_chain false 512 12288 12800 16384 10576 13949 (by norm_num) t24 c25
  have t26 : lfsrIter false 13312 16384 = 7273 := lfsrIter_chain false 512 12800 13312 16384 13949 7273 (by norm_num) t25 c26
  have t27 : lfsrIter false 13824 16384 = 6598 := lfsrIter_chain false 512 13312 13824 16384 7273 6598 (by norm_num) t26 c27
  have t28 : lfsrIter false 14336 16384 = 13544 := lfsrIter_chain false 512 13824 14336 16384 6598 13544 (by norm_num) t27 c28
  have t29 : lfsrIter false 14848 16384 = 17166 := lfsrIter_chain false 512 14336 14848 16384 13544 17166 (by norm_num) t28 c29
  have t30 : lfsrIter false 15360 16384 = 29696 := lfsrIter_chain false 512 14848 15360 16384 17166 29696 (by norm_num) t29 c30
  have t31 : lfsrIter false 15872 16384 = 7540 := lfsrIter_chain false 512 15360 15872 16384 29696 7540 (by norm_num) t30 c31
  have t32 : lfsrIter false 16384 16384 = 8256 := lfsrIter_chain false 512 15872 16384 16384 7540 8256 (by norm_num) t31 c32
  have t33 : lfsrIter false 16896 16384 = 14384 := lfsrIter_chain false 512 16384 16896 16384 8256 14384 (by norm_num) t32 c33
  have t34 : lfsrIter false 17408 16384 = 6708 := lfsrIter_chain false 512 16896 17408 16384 14384 6708 (by norm_num) t33 c34
  have t35 : lfsrIter false 17920 16384 = 4503 := lfsrIter_chain false 512 17408 17920 16384 6708 4503 (by norm_num) t34 c35
  have t36 : lfsrIter false 18432 16384 = 14900 := lfsrIter_chain false 512 17920 18432 16384 4503 14900 (by norm_num) t35 c36
  have t37 : lfsrIter false 18944 16384 = 6583 := lfsrIter_chain false 512 18432 18944 16384 14900 6583 (by norm_num) t36 c37
  have t38 : lfsrIter false 19456 16384 = 8244 := lfsrIter_chain false 512 18944 19456 16384 6583 8244 (by norm_num) t37 c38
  have t39 : lfsrIter false 19968 16384 = 7981 := lfsrIter_chain false 512 19456 19968 16384 8244 7981 (by norm_num) t38 c39
  have t40 : lfsrIter false 20480 16384 = 10772 := lfsrIter_chain false 512 19968 20480 16384 7981 10772 (by norm_num) t39 c40
  have t41 : lfsrIter false 20992 16384 = 1455 := lfsrIter_chain false 512 20480 20992 16384 10772 1455 (by norm_num) t40 c41
  have t42 : lfsrIter false 21504 16384 = 11566 := lfsrIter_chain false 512 20992 21504 16384 1455 11566 (by norm_num) t41 c42
  have t43 : lfsrIter false 22016 16384 = 30694 := lfsrIter_chain false 512 21504 22016 16384 11566 30694 (by norm_num) t42 c43
  have t44 : lfsrIter false 22528 16384 = 14094 := lfsrIter_chain false 512 22016 22528 16384 30694 14094 (by norm_num) t43 c44
  have t45 : lfsrIter false 23040 16384 = 26996 := lfsrIter_chain false 512 22528 23040 16384 14094 26996 (by norm_num) t44 c45
  have t46 : lfsrIter false 23552 16384 = 15668 := lfsrIter_chain false 512 23040 23552 16384 26996 15668 (by norm_num) t45 c46
  have t47 : lfsrIter false 24064 16384 = 6256 := lfsrIter_chain false 512 23552 24064 16384 15668 6256 (by norm_num) t46 c47
  have t48 : lfsrIter false 24576 16384 = 8708 := lfsrIter_chain false 512 24064 24576 16384 6256 8708 (by norm_num) t47 c48
  have t49 : lfsrIter false 25088 16384 = 2979 := lfsrIter_chain false 512 24576 25088 16384 8708 2979 (by norm_num) t48 c49
  have t50 : lfsrIter false 25600 16384 = 11171 := lfsrIter_chain false 512 25088 25600 16384 2979 11171 (by norm_num) t49 c50
  have t51 : lfsrIter false 26112 16384 = 9091 := lfsrIter_chain false 512 25600 26112 16384 11171 9091 (by norm_num) t50 c51
  have t52 : lfsrIter false 26624 16384 = 14723 := lfsrIter_chain false 512 26112 26624 16384 9091 14723 (by norm_num) t51 c52
  have t53 : lfsrIter false 27136 16384 = 16153 := lfsrIter_chain false 512 26624 27136 16384 14723 16153 (by norm_num) t52 c53
  have t54 : lfsrIter false 27648 16384 = 13625 := lfsrIter_chain false 512 27136 27648 16384 16153 13625 (by norm_num) t53 c54
  have t55 : lfsrIter false 28160 16384 = 12219 := lfsrIter_chain false 512 27648 28160 16384 13625 12219 (by norm_num) t54 c55
  have t56 : lfsrIter false 28672 16384 = 10369 := lfsrIter_chain false 512 28160 28672 16384 12219 10369 (by norm_num) t55 c56
  have t57 : lfsrIter false 29184 16384 = 23240 := lfsrIter_chain false 512 28672 29184 16384 10369 23240 (by norm_num) t56 c57
  have t58 : lfsrIter false 29696 16384 = 16616 := lfsrIter_chain false 512 29184 29696 16384 23240 16616 (by norm_num) t57 c58
  have t59 : lfsrIter false 30208 16384 = 24186 := lfsrIter_chain false 512 29696 30208 16384 16616 24186 (by norm_num) t58 c59
  have t60 : lfsrIter false 30720 16384 = 21568 := lfsrIter_chain false 512 30208 30720 16384 24186 21568 (by norm_num) t59 c60
  have t61 : lfsrIter false 31232 16384 = 9540 := lfsrIter_chain false 512 30720 31232 16384 21568 9540 (by norm_num) t60 c61
  have t62 : lfsrIter false 31744 16384 = 14964 := lfsrIter_chain false 512 31232 31744 16384 9540 14964 (by norm_num) t61 c62
  have t63 : lfsrIter false 32256 16384 = 10663 := lfsrIter_chain false 512 31744 32256 16384 14964 10663 (by norm_num) t62 c63
  have tmain : lfsrIter false 32767 16384 = 16384 := lfsrIter_chain false 511 32256 32767 16384 10663 16384 (by norm_num) t63 cF
  have t4681 : lfsrIter false 4681 16384 = 9780 := lfsrIter_chain false 73 4608 4681 16384 15652 9780 (by norm_num) t9 d73
  have t1057 : lfsrIter false 1057 16384 = 1824 := lfsrIter_chain false 33 1024 1057 16384 13312 1824 (by norm_num) t2 d33
  exact ⟨tmain, t4681, t1057, d217⟩

theorem dvd_32767_cases (g : Nat) (hg : g ∣ 32767) :
    g = 32767 ∨ g ∣ 4681 ∨ g ∣ 1057 ∨ g ∣ 217 := by
  by_cases h7 : 7 ∣ g
  · by_cases h31 : 31 ∣ g
    · by_cases h151 : 151 ∣ g
      · left
        have hc1 : Nat.Coprime 7 31 := by show Nat.gcd 7 31 = 1; decide
        have h217 : 7 * 31 ∣ g := hc1.mul_dvd_of_dvd_of_dvd h7 h31
        have hc2 : Nat.Coprime (7 * 31) 151 := by
          show Nat.gcd (7 * 31) 151 = 1; decide
        have hall : 7 * 31 * 151 ∣ g := hc2.mul_dvd_of_dvd_of_dvd h217 h151
        have hall' : (32767 : Nat) ∣ g := by norm_num at hall; exact hall
        exact Nat.dvd_antisymm hg hall'
      · have hp : Nat.Prime 151 := by norm_num
        have hc : Nat.Coprime g 151 := (hp.coprime_iff_not_dvd.mpr h151).symm
        have hg' : g ∣ 217 * 151 := by norm_num; exact hg
        exact Or.inr (Or.inr (Or.inr (hc.dvd_of_dvd_mul_right hg')))
    · have hp : Nat.Prime 31 := by norm_num
      have hc : Nat.Coprime g 31 := (hp.coprime_iff_not_dvd.mpr h31).symm
      have hg' : g ∣ 1057 * 31 := by norm_num; exact hg
      exact Or.inr (Or.inr (Or.inl (hc.dvd_of_dvd_mul_right hg')))
  · have hp : Nat.Prime 7 := by norm_num
    have hc : Nat.Coprime g 7 := (hp.coprime_iff_not_dvd.mpr h7).symm
    have hg' : g ∣ 4681 * 7 := by norm_num; exact hg
    exact Or.inr (Or.inl (hc.dvd_of_dvd_mul_right hg'))

/-- C6: the LFSR update of `_updateChannel4` is `lfsrStep`, and iterating it
from the restart preload (`0x4000` in 15-bit mode, `0x40` in 7-bit mode,
as loaded by `GBAudioWriteNR44`) first returns to the preload after exactly
32767 steps (15-bit) and exactly 127 steps (7-bit) — never sooner. -/
theorem lfsr_period :
    (∀ ch : GBAudioChannel4, (_updateChannel4 ch).1.lfsr = lfsrStep ch.power ch.lfsr) ∧
    lfsrIter false 32767 0x4000 = 0x4000 ∧
    (∀ k : Nat, 0 < k → k < 32767 → lfsrIter false k 0x4000 ≠ 0x4000) ∧
    lfsrIter true 127 0x40 = 0x40 ∧
    (∀ k : Nat, 0 < k → k < 127 → lfsrIter true k 0x40 ≠ 0x40) := by
  refine ⟨fun ch => rfl, lfsr15_period_facts.1, ?_, by decide, ?_⟩
  · intro k hk0 hklt h
    have hp : Function.IsPeriodicPt (lfsrStep false) k 16384 := h
    have hP : Function.IsPeriodicPt (lfsrStep false) 32767 16384 :=
      lfsr15_period_facts.1
    have hg := Function.IsPeriodicPt.gcd hp hP
    have hgdvd : Nat.gcd k 32767 ∣ 32767 := Nat.gcd_dvd_right _ _
    have hgle : Nat.gcd k 32767 ≤ k := Nat.le_of_dvd hk0 (Nat.gcd_dvd_left _ _)
    rcases dvd_32767_cases _ hgdvd with hcase | hcase | hcase | hcase
    · omega
    · obtain ⟨t, ht⟩ := hcase
      have h2 : Function.IsPeriodicPt (lfsrStep false) 4681 16384 := by
        rw [ht]; exact hg.mul_const t
      have h3 : lfsrIter false 4681 16384 = 16384 := h2
      rw [lfsr15_period_facts.2.1] at h3
      exact absurd h3 (by decide)
    · obtain ⟨t, ht⟩ := hcase
      have h2 : Function.IsPeriodicPt (lfsrStep false) 1057 16384 := by
        rw [ht]; exact hg.mul_const t
      have h3 : lfsrIter false 1057 16384 = 16384 := h2
      rw [lfsr15_period_facts.2.2.1] at h3
      exact absurd h3 (by decide)
    · obtain ⟨t, ht⟩ := hcase
      have h2 : Function.IsPeriodicPt (lfsrStep false) 217 16384 := by
        rw [ht]; exact hg.mul_const t
      have h3 : lfsrIter false 217 16384 = 16384 := h2
      rw [lfsr15_period_facts.2.2.2] at h3
      exact absurd h3 (by decide)
  · intro k hk0 hklt h
    have hp : Function.IsPeriodicPt (lfsrStep true) k 64 := h
    have h127 : lfsrIter true 127 64 = 64 := by decide
    have hP : Function.IsPeriodicPt (lfsrStep true) 127 64 := h127
    have hg := Function.IsPeriodicPt.gcd hp hP
    have hgdvd : Nat.gcd k 127 ∣ 127 := Nat.gcd_dvd_right _ _
    have hgle : Nat.gcd k 127 ≤ k := Nat.le_of_dvd hk0 (Nat.gcd_dvd_left _ _)
    have hprime : Nat.Prime 127 := by norm_num
    rcases hprime.eq_one_or_self_of_dvd _ hgdvd with h1 | h1
    · rw [h1] at hg
      have h2 : lfsrIter true 1 64 = 64 := hg
      exact absurd h2 (by decide)
    · omega

/-- Witness for C6 at concrete step counts. -/
theorem lfsr_period_witness :
    lfsrIter false 5 0x4000 ≠ 0x4000 ∧ lfsrIter true 5 0x40 ≠ 0x40 :=
  ⟨lfsr_period.2.2.1 5 (by norm_num) (by norm_num),
   lfsr_period.2.2.2.2 5 (by norm_num) (by norm_num)⟩

/-! ## NR52 global disable -/

/-- C4, counterexample: on DMG, writing bit-7 = 0 to NR52 *does* clear the
memory-mapped NR11 byte (the claim says length registers are cleared only on
non-DMG styles), while the NR41 byte — alone among the length registers — is
left untouched. -/
theorem nr52_disable_counterexample :
    nr52CexAudio.style = GBAudioStyle.GB_AUDIO_DMG ∧
    nr52CexAudio.p.map (fun q => q.mem.nr11) = some 5 ∧
    (GBAudioWriteNR52 nr52CexAudio 0).p.map (fun q => q.mem.nr11) = some 0 ∧
    (GBAudioWriteNR52 nr52CexAudio 0).p.map (fun q => q.mem.nr41) = some 7 := by
  decide

theorem writeNR10_zero (b : GBAudio) (hb : b.playingCh1 = false) :
    GBAudioWriteNR10 b 0 = { b with
      ch1.shift := 0, ch1.direction := false, ch1.sweepOccurred := false,
      ch1.time := 8, playingCh1 := false,
      nr52 := if b.ch1.sweepOccurred ∧ b.ch1.direction then b.nr52 &&& 0xFE
        else b.nr52 } := by
  unfold GBAudioWriteNR10 GBAudioRegisterSquareSweepGetShift
    GBAudioRegisterSquareSweepGetDirection GBAudioRegisterSquareSweepGetTime
  dsimp only
  norm_num
  split_ifs <;> simp_all

theorem writeNR11_zero (b : GBAudio) :
    GBAudioWriteNR11 b 0 = { b with
      ch1.envelope.length := 0, ch1.envelope.duty := 0,
      ch1.control.length := 64 } := by
  unfold GBAudioWriteNR11 _writeDuty GBAudioRegisterDutyGetLength
    GBAudioRegisterDutyGetDuty
  dsimp only
  norm_num

theorem writeNR12_zero (b : GBAudio) :
    GBAudioWriteNR12 b 0 = { b with
      ch1.envelope.stepTime := 0, ch1.envelope.direction := false,
      ch1.envelope.initialVolume := 0,
      ch1.envelope.dead := if b.ch1.envelope.currentVolume ≠ 0 then 1 else 2,
      ch1.envelope.nextStep := 0, playingCh1 := false,
      nr52 := b.nr52 &&& 0xFE } := by
  unfold GBAudioWriteNR12 _writeSweep GBAudioRegisterSweepGetStepTime
    GBAudioRegisterSweepGetDirection GBAudioRegisterSweepGetInitialVolume
  dsimp only
  norm_num

theorem writeNR13_zero (b : GBAudio) :
    GBAudioWriteNR13 b 0 = { b with
      ch1.control.frequency := b.ch1.control.frequency &&& 0x700 } := by
  unfold GBAudioWriteNR13 GBAudioRegisterControlGetFrequency
  dsimp only
  norm_num

theorem writeNR14_zero (b : GBAudio) (hb : b.playingCh1 = false) :
    GBAudioWriteNR14 b 0 = { b with
      ch1.control.frequency := b.ch1.control.frequency &&& 0xFF,
      ch1.control.stop := false,
      nr52 := b.nr52 &&& 0xFE } := by
  unfold GBAudioWriteNR14 GBAudioRegisterControlGetFrequency
    GBAudioRegisterControlGetStop GBAudioRegisterControlIsRestart
  dsimp only
  norm_num
  simp [hb]

theorem writeNR21_zero (b : GBAudio) :
    GBAudioWriteNR21 b 0 = { b with
      ch2.envelope.length := 0, ch2.envelope.duty := 0,
      ch2.control.length := 64 } := by
  unfold GBAudioWriteNR21 _writeDuty GBAudioRegisterDutyGetLength
    GBAudioRegisterDutyGetDuty
  dsimp only
  norm_num

theorem writeNR22_zero (b : GBAudio) :
    GBAudioWriteNR22 b 0 = { b with
      ch2.envelope.stepTime := 0, ch2.envelope.direction := false,
      ch2.envelope.initialVolume := 0,
      ch2.envelope.dead := if b.ch2.envelope.currentVolume ≠ 0 then 1 else 2,
      ch2.envelope.nextStep := 0, playingCh2 := false,
      nr52 := b.nr52 &&& 0xFD } := by
  unfold GBAudioWriteNR22 _writeSweep GBAudioRegisterSweepGetStepTime
    GBAudioRegisterSweepGetDirection GBAudioRegisterSweepGetInitialVolume
  dsimp only
  norm_num

theorem writeNR23_zero (b : GBAudio) :
    GBAudioWriteNR23 b 0 = { b with
      ch2.control.frequency := b.ch2.control.frequency &&& 0x700 } := by
  unfold GBAudioWriteNR23 GBAudioRegisterControlGetFrequency
  dsimp only
  norm_num

theorem writeNR24_zero (b : GBAudio) (hb : b.playingCh2 = false) :
    GBAudioWriteNR24 b 0 = { b with
      ch2.control.frequency := b.ch2.control.frequency &&& 0xFF,
      ch2.control.stop := false,
      nr52 := b.nr52 &&& 0xFD } := by
  unfold GBAudioWriteNR24 GBAudioRegisterControlGetFrequency
    GBAudioRegisterControlGetStop GBAudioRegisterControlIsRestart
  dsimp only
  norm_num
  simp [hb]

theorem writeNR30_zero (b : GBAudio) :
    GBAudioWriteNR30 b 0 = { b with
      ch3.enable := false, playingCh3 := false,
      nr52 := b.nr52 &&& 0xFB } := by
  unfold GBAudioWriteNR30 GBAudioRegisterBankGetEnable
  dsimp only
  norm_num

theorem writeNR31_zero (b : GBAudio) :
    GBAudioWriteNR31 b 0 = { b with ch3.length := 256 } := by
  unfold GBAudioWriteNR31
  norm_num

theorem writeNR32_zero (b : GBAudio) :
    GBAudioWriteNR32 b 0 = { b with ch3.volume := 0 } := by
  unfold GBAudioWriteNR32 GBAudioRegisterBankVolumeGetVolumeGB
  norm_num

theorem writeNR33_zero (b : GBAudio) :
    GBAudioWriteNR33 b 0 = { b with
      ch3.rate := b.ch3.rate &&& 0x700 } := by
  unfold GBAudioWriteNR33 GBAudioRegisterControlGetRate
  dsimp only
  norm_num

theorem writeNR34_zero (b : GBAudio) (hb : b.playingCh3 = false) :
    GBAudioWriteNR34 b 0 = { b with
      ch3.rate := b.ch3.rate &&& 0xFF, ch3.stop := false,
      nr52 := b.nr52 &&& 0xFB } := by
  unfold GBAudioWriteNR34 nr34UpdateRateStop nr34Restart nr34Reschedule
    GBAudioRegisterControlGetRate GBAudioRegisterControlGetStop
    GBAudioRegisterControlIsRestart
  dsimp only
  norm_num
  simp [hb]

theorem writeNR41_zero (b : GBAudio) :
    GBAudioWriteNR41 b 0 = { b with
      ch4.envelope.length := 0, ch4.envelope.duty := 0,
      ch4.length := 64 } := by
  unfold GBAudioWriteNR41 _writeDuty GBAudioRegisterDutyGetLength
    GBAudioRegisterDutyGetDuty
  dsimp only
  norm_num

theorem writeNR42_zero (b : GBAudio) :
    GBAudioWriteNR42 b 0 = { b with
      ch4.envelope.stepTime := 0, ch4.envelope.direction := false,
      ch4.envelope.initialVolume := 0,
      ch4.envelope.dead := if b.ch4.envelope.currentVolume ≠ 0 then 1 else 2,
      ch4.envelope.nextStep := 0, playingCh4 := false,
      nr52 := b.nr52 &&& 0xF7 } := by
  unfold GBAudioWriteNR42 _writeSweep GBAudioRegisterSweepGetStepTime
    GBAudioRegisterSweepGetDirection GBAudioRegisterSweepGetInitialVolume
  dsimp only
  norm_num

theorem writeNR43_zero (b : GBAudio) :
    GBAudioWriteNR43 b 0 = { b with
      ch4.ratio := 0, ch4.frequency := 0, ch4.power := false } := by
  unfold GBAudioWriteNR43 GBAudioRegisterNoiseFeedbackGetRatio
    GBAudioRegisterNoiseFeedbackGetFrequency GBAudioRegisterNoiseFeedbackGetPower
  norm_num

theorem writeNR44_zero (b : GBAudio) (hb : b.playingCh4 = false) :
    GBAudioWriteNR44 b 0 = { b with
      ch4.stop := false,
      nr52 := b.nr52 &&& 0xF7 } := by
  unfold GBAudioWriteNR44 GBAudioRegisterNoiseControlGetStop
    GBAudioRegisterNoiseControlIsRestart
  dsimp only
  norm_num
  simp [hb]

theorem writeNR50_zero (b : GBAudio) :
    GBAudioWriteNR50 b 0 = { b with
      volumeRight := 0, volumeLeft := 0 } := by
  unfold GBAudioWriteNR50 GBRegisterNR50GetVolumeRight GBRegisterNR50GetVolumeLeft
  norm_num

theorem writeNR51_zero (b : GBAudio) :
    GBAudioWriteNR51 b 0 = { b with
      ch1Right := false, ch2Right := false, ch3Right := false,
      ch4Right := false, ch1Left := false, ch2Left := false,
      ch3Left := false, ch4Left := false } := by
  unfold GBAudioWriteNR51 GBRegisterNR51GetCh1Right GBRegisterNR51GetCh2Right
    GBRegisterNR51GetCh3Right GBRegisterNR51GetCh4Right GBRegisterNR51GetCh1Left
    GBRegisterNR51GetCh2Left GBRegisterNR51GetCh3Left GBRegisterNR51GetCh4Left
  norm_num

set_option maxHeartbeats 3000000 in
/-- C4, amended: writing a bit-7-clear value to NR52 clears all four
`playing_chN` flags and performs every audio register write NR10–NR51 with
0; the *register state* of the length registers NR11/21/31/41 is cleared
only on non-DMG styles; among the memory-mapped bytes, NR10–NR51 are
cleared unconditionally *except* NR41, which is the only length byte to
survive on DMG.  Writing bit-7 set after it was clear resets `frame`
to 7. -/
theorem nr52_disable (a : GBAudio) (p0 : GBParent) (value : Nat)
    (hv : GBAudioEnableGetEnable value = false) (hp : a.p = some p0) :
    (∀ (b : GBAudio) (v2 : Nat), b.enable = false →
      GBAudioEnableGetEnable v2 = true → (GBAudioWriteNR52 b v2).frame = 7) ∧
    ((GBAudioWriteNR52 a value).playingCh1 = false ∧
      (GBAudioWriteNR52 a value).playingCh2 = false ∧
      (GBAudioWriteNR52 a value).playingCh3 = false ∧
      (GBAudioWriteNR52 a value).playingCh4 = false) ∧
    ((GBAudioWriteNR52 a value).volumeLeft = 0 ∧
      (GBAudioWriteNR52 a value).volumeRight = 0 ∧
      (GBAudioWriteNR52 a value).ch1Left = false ∧
      (GBAudioWriteNR52 a value).ch1Right = false ∧
      (GBAudioWriteNR52 a value).ch1.shift = 0 ∧
      (GBAudioWriteNR52 a value).ch1.time = 8 ∧
      (GBAudioWriteNR52 a value).ch1.control.frequency = 0 ∧
      (GBAudioWriteNR52 a value).ch1.control.stop = false ∧
      (GBAudioWriteNR52 a value).ch1.envelope.stepTime = 0 ∧
      (GBAudioWriteNR52 a value).ch1.envelope.initialVolume = 0 ∧
      (GBAudioWriteNR52 a value).ch1.envelope.direction = false ∧
      (GBAudioWriteNR52 a value).ch2.control.frequency = 0 ∧
      (GBAudioWriteNR52 a value).ch2.envelope.initialVolume = 0 ∧
      (GBAudioWriteNR52 a value).ch3.enable = false ∧
      (GBAudioWriteNR52 a value).ch3.volume = 0 ∧
      (GBAudioWriteNR52 a value).ch3.rate = 0 ∧
      (GBAudioWriteNR52 a value).ch3.stop = false ∧
      (GBAudioWriteNR52 a value).ch4.ratio = 0 ∧
      (GBAudioWriteNR52 a value).ch4.frequency = 0 ∧
      (GBAudioWriteNR52 a value).ch4.power = false ∧
      (GBAudioWriteNR52 a value).ch4.envelope.initialVolume = 0 ∧
      (GBAudioWriteNR52 a value).ch4.stop = false) ∧
    ((GBAudioWriteNR52 a value).ch1.envelope.length =
        (if a.style = GBAudioStyle.GB_AUDIO_DMG then a.ch1.envelope.length else 0) ∧
      (GBAudioWriteNR52 a value).ch1.control.length =
        (if a.style = GBAudioStyle.GB_AUDIO_DMG then a.ch1.control.length else 64) ∧
      (GBAudioWriteNR52 a value).ch2.envelope.length =
        (if a.style = GBAudioStyle.GB_AUDIO_DMG then a.ch2.envelope.length else 0) ∧
      (GBAudioWriteNR52 a value).ch2.control.length =
        (if a.style = GBAudioStyle.GB_AUDIO_DMG then a.ch2.control.length else 64) ∧
      (GBAudioWriteNR52 a value).ch3.length =
        (if a.style = GBAudioStyle.GB_AUDIO_DMG then a.ch3.length else 256) ∧
      (GBAudioWriteNR52 a value).ch4.envelope.length =
        (if a.style = GBAudioStyle.GB_AUDIO_DMG then a.ch4.envelope.length else 0) ∧
      (GBAudioWriteNR52 a value).ch4.length =
        (if a.style = GBAudioStyle.GB_AUDIO_DMG then a.ch4.length else 64)) ∧
    (GBAudioWriteNR52 a value).p = some { p0 with mem := { p0.mem with
      nr10 := 0, nr11 := 0, nr12 := 0, nr13 := 0, nr14 := 0,
      nr21 := 0, nr22 := 0, nr23 := 0, nr24 := 0,
      nr30 := 0, nr31 := 0, nr32 := 0, nr33 := 0, nr34 := 0,
      nr41 := (if a.style = GBAudioStyle.GB_AUDIO_DMG then p0.mem.nr41 else 0),
      nr42 := 0, nr43 := 0, nr44 := 0, nr50 := 0, nr51 := 0 } } := by
  refine ⟨fun b v2 hb hv2 => by unfold GBAudioWriteNR52; simp [hv2, hb], ?_⟩
  by_cases hst : a.style = GBAudioStyle.GB_AUDIO_DMG <;>
    (unfold GBAudioWriteNR52;
     simp [hv, hp, hst, writeNR10_zero, writeNR11_zero, writeNR12_zero,
       writeNR13_zero, writeNR14_zero, writeNR21_zero, writeNR22_zero,
       writeNR23_zero, writeNR24_zero, writeNR30_zero, writeNR31_zero,
       writeNR32_zero, writeNR33_zero, writeNR34_zero, writeNR41_zero,
       writeNR42_zero, writeNR43_zero, writeNR44_zero, writeNR50_zero,
       writeNR51_zero, Nat.and_assoc];
     try simp [(show (1792 &&& 255 : Nat) = 0 from rfl), Nat.and_zero])

/-- Witness for C4's amended theorem at a concrete input. -/
theorem nr52_disable_witness :
    (GBAudioWriteNR52 nr52CexAudio 0).playingCh1 = false :=
  (nr52_disable nr52CexAudio
    { parentZero with mem := { memRegsZero with nr11 := 5, nr41 := 7 } } 0
    (by decide) rfl).2.1.1

/-! ## DMG wave-RAM retrigger corruption -/

theorem wave8get_set_eq (w : List Nat) (i v : Nat) (h : i < w.length) :
    wave8get (wave8set w i v) i = v := by
  unfold wave8get wave8set
  simp [List.getD_eq_getElem?_getD, List.getElem?_set, h]

theorem wave8get_set_ne (w : List Nat) (i j v : Nat) (h : i ≠ j) :
    wave8get (wave8set w i v) j = wave8get w j := by
  unfold wave8get wave8set
  simp [List.getD_eq_getElem?_getD, List.getElem?_set, h]

theorem nr34UpdateRateStop_noedge (b : GBAudio) (v : Nat)
    (hv6 : GBAudioRegisterControlGetStop (v <<< 8) = false) :
    nr34UpdateRateStop b v = { b with
      ch3.rate := (b.ch3.rate &&& 0xFF) ||| GBAudioRegisterControlGetRate (v <<< 8),
      ch3.stop := false } := by
  unfold nr34UpdateRateStop
  dsimp only
  simp [hv6]

theorem nr34Restart_corrupt (b : GBAudio) (v : Nat)
    (hrestart : GBAudioRegisterControlIsRestart (v <<< 8) = true)
    (hdmg : b.style = GBAudioStyle.GB_AUDIO_DMG)
    (hplay : b.playingCh3 = true)
    (hen : b.ch3.enable = true)
    (hread : b.ch3.readable = true) :
    nr34Restart b v = { b with
      playingCh3 := true
      ch3.length :=
        (if b.ch3.length = 0 then
          (if b.ch3.stop ∧ b.frame % 2 = 0 then 255 else 256)
        else b.ch3.length)
      ch3.wavedata :=
        (if b.ch3.window < 8 then
          wave8set b.ch3.wavedata 0
            (wave8get b.ch3.wavedata (b.ch3.window >>> 1))
        else
          let bo := ((b.ch3.window >>> 1) >>> 2) <<< 2
          let wd := b.ch3.wavedata
          let wd := wave8set wd 0 (wave8get wd bo)
          let wd := wave8set wd 1 (wave8get wd (bo + 1))
          let wd := wave8set wd 2 (wave8get wd (bo + 2))
          wave8set wd 3 (wave8get wd (bo + 3)))
      ch3.window := 0 } := by
  unfold nr34Restart
  dsimp only
  simp only [hrestart, hdmg, hplay, hen, hread, if_true]
  split_ifs <;> simp_all

theorem nr34Reschedule_wavedata (b : GBAudio) :
    (nr34Reschedule b).ch3.wavedata = b.ch3.wavedata ∧
    (nr34Reschedule b).ch3.window = b.ch3.window := by
  unfold nr34Reschedule _scheduleEvent
  dsimp only
  split_ifs <;> first
    | exact ⟨rfl, rfl⟩
    | (cases hbp : b.p <;> simp [hbp])

/-- C7: on DMG, an NR34 write with the restart bit set (and the length-enable
stop bit clear, so the write cannot clock the length counter on a stop rising
edge), while the channel is playing with channel 3 enabled and wave RAM
readable: for `window < 8`, wave RAM byte 0 is overwritten with the byte at
offset `window >> 1` and all other bytes survive; for `window ≥ 8`, bytes 0–3
are overwritten with the 4-byte block at the aligned offset
`(window >> 1) & ~3` (written `((window >>> 1) >>> 2) <<< 2`) and all other
bytes survive. -/
theorem nr34_retrigger_wave_corruption (a : GBAudio) (value : Nat)
    (hrestart : GBAudioRegisterControlIsRestart (value <<< 8) = true)
    (hv6 : GBAudioRegisterControlGetStop (value <<< 8) = false)
    (hdmg : a.style = GBAudioStyle.GB_AUDIO_DMG)
    (hread : a.ch3.readable = true)
    (hen : a.ch3.enable = true)
    (hplay : a.playingCh3 = true)
    (hlen : a.ch3.wavedata.length = 32) :
    (a.ch3.window < 8 →
      wave8get (GBAudioWriteNR34 a value).ch3.wavedata 0 =
        wave8get a.ch3.wavedata (a.ch3.window >>> 1) ∧
      (∀ i, 1 ≤ i → i < 32 →
        wave8get (GBAudioWriteNR34 a value).ch3.wavedata i =
          wave8get a.ch3.wavedata i)) ∧
    (8 ≤ a.ch3.window →
      (∀ i, i < 4 →
        wave8get (GBAudioWriteNR34 a value).ch3.wavedata i =
          wave8get a.ch3.wavedata ((((a.ch3.window >>> 1) >>> 2) <<< 2) + i)) ∧
      (∀ i, 4 ≤ i → i < 32 →
        wave8get (GBAudioWriteNR34 a value).ch3.wavedata i =
          wave8get a.ch3.wavedata i)) := by
  have hmain : (GBAudioWriteNR34 a value).ch3.wavedata =
      (if a.ch3.window < 8 then
        wave8set a.ch3.wavedata 0
          (wave8get a.ch3.wavedata (a.ch3.window >>> 1))
      else
        let bo := ((a.ch3.window >>> 1) >>> 2) <<< 2
        let wd := a.ch3.wavedata
        let wd := wave8set wd 0 (wave8get wd bo)
        let wd := wave8set wd 1 (wave8get wd (bo + 1))
        let wd := wave8set wd 2 (wave8get wd (bo + 2))
        wave8set wd 3 (wave8get wd (bo + 3))) := by
    unfold GBAudioWriteNR34
    dsimp only
    rw [nr34UpdateRateStop_noedge a value hv6]
    rw [nr34Restart_corrupt _ value hrestart (by simpa using hdmg)
      (by simpa using hplay) (by simpa using hen) (by simpa using hread)]
    rw [(nr34Reschedule_wavedata _).1]
  have hb4 : 8 ≤ a.ch3.window → 4 ≤ ((a.ch3.window >>> 1) >>> 2) <<< 2 := by
    intro h
    omega
  constructor
  · intro hw
    rw [hmain, if_pos hw]
    constructor
    · exact wave8get_set_eq _ 0 _ (by omega)
    · intro i h1 h32
      exact wave8get_set_ne _ 0 i _ (by omega)
  · intro hw
    rw [hmain, if_neg (by omega)]
    dsimp only
    have hb := hb4 hw
    constructor
    · intro i hi
      interval_cases i
      · rw [wave8get_set_ne _ 3 0 _ (by omega), wave8get_set_ne _ 2 0 _ (by omega),
          wave8get_set_ne _ 1 0 _ (by omega), wave8get_set_eq _ 0 _ (by omega)]
        simp
      · rw [wave8get_set_ne _ 3 1 _ (by omega), wave8get_set_ne _ 2 1 _ (by omega),
          wave8get_set_eq _ 1 _ (by simp [wave8set]; omega),
          wave8get_set_ne _ 0 _ _ (by omega)]
      · rw [wave8get_set_ne _ 3 2 _ (by omega),
          wave8get_set_eq _ 2 _ (by simp [wave8set]; omega),
          wave8get_set_ne _ 1 _ _ (by omega), wave8get_set_ne _ 0 _ _ (by omega)]
      · rw [wave8get_set_eq _ 3 _ (by simp [wave8set]; omega),
          wave8get_set_ne _ 2 _ _ (by omega), wave8get_set_ne _ 1 _ _ (by omega),
          wave8get_set_ne _ 0 _ _ (by omega)]
    · intro i h4 h32
      rw [wave8get_set_ne _ 3 i _ (by omega), wave8get_set_ne _ 2 i _ (by omega),
        wave8get_set_ne _ 1 i _ (by omega), wave8get_set_ne _ 0 i _ (by omega)]

theorem nr34_retrigger_wave_corruption_witness :
    GBAudioRegisterControlIsRestart (0x80 <<< 8) = true ∧
    GBAudioRegisterControlGetStop (0x80 <<< 8) = false ∧
    c7Audio.style = GBAudioStyle.GB_AUDIO_DMG ∧
    c7Audio.ch3.readable = true ∧
    c7Audio.ch3.enable = true ∧
    c7Audio.playingCh3 = true ∧
    c7Audio.ch3.wavedata.length = 32 ∧
    (8 ≤ c7Audio.ch3.window →
      (∀ i, i < 4 →
        wave8get (GBAudioWriteNR34 c7Audio 0x80).ch3.wavedata i =
          wave8get c7Audio.ch3.wavedata
            ((((c7Audio.ch3.window >>> 1) >>> 2) <<< 2) + i)) ∧
      (∀ i, 4 ≤ i → i < 32 →
        wave8get (GBAudioWriteNR34 c7Audio 0x80).ch3.wavedata i =
          wave8get c7Audio.ch3.wavedata i)) :=
  ⟨by decide, by decide, rfl, rfl, rfl, rfl, by decide,
    (nr34_retrigger_wave_corruption c7Audio 0x80 (by decide) (by decide)
      rfl rfl rfl rfl (by decide)).2⟩

/-- C8: for every thread context whose state is not `THREAD_INTERRUPTED`,
`mCoreThreadEnd` moves the state to `THREAD_EXITING`, clears the sync
block's `audioWait` and `videoFrameWait`, wakes the state cond and the
audio-required and video-frame conds, and does not block; a second call on
the resulting context leaves `state`, `audioWait` and `videoFrameWait` at
those same values (it is idempotent on the context). -/
theorem mCoreThreadEnd_exiting (t : MCoreThread)
    (h : t.state ≠ .THREAD_INTERRUPTED) :
    mCoreThreadEnd t =
      { ctx := some (endedCtx t)
        woken := [.stateCond, .audioRequiredCond,
          .videoFrameRequiredCond, .videoFrameAvailableCond]
        blocked := false } ∧
    (∀ t2, (mCoreThreadEnd t).ctx = some t2 →
      (mCoreThreadEnd t2).ctx = some t2 ∧
      t2.state = .THREAD_EXITING ∧ t2.sync.audioWait = false ∧
      t2.sync.videoFrameWait = false) := by
  have h1 : mCoreThreadEnd t =
      { ctx := some (endedCtx t)
        woken := [.stateCond, .audioRequiredCond,
          .videoFrameRequiredCond, .videoFrameAvailableCond]
        blocked := false } := by
    unfold mCoreThreadEnd
    rw [if_neg h]
    rfl
  refine ⟨h1, ?_⟩
  intro t2 ht2
  rw [h1] at ht2
  have ht2' : t2 = endedCtx t := (Option.some_inj.mp ht2).symm
  subst ht2'
  refine ⟨?_, by simp [endedCtx], by simp [endedCtx], by simp [endedCtx]⟩
  unfold mCoreThreadEnd
  rw [if_neg (by simp [endedCtx])]
  simp [endedCtx]

theorem mCoreThreadEnd_exiting_witness :
    threadRunning.state ≠ MCoreThreadState.THREAD_INTERRUPTED ∧
    mCoreThreadEnd threadRunning =
      { ctx := some (endedCtx threadRunning)
        woken := [.stateCond, .audioRequiredCond,
          .videoFrameRequiredCond, .videoFrameAvailableCond]
        blocked := false } :=
  ⟨by decide, (mCoreThreadEnd_exiting threadRunning (by decide)).1⟩

/-- C9: when `nextEvent = INT_MAX` (the event is unscheduled),
`GBAudioProcessEvents` returns `INT_MAX` for every `cycles` value and
leaves the audio state completely unchanged — in particular `eventDiff`
does not accumulate the elapsed cycles. -/
theorem GBAudioProcessEvents_unscheduled (fuel : Nat) (a : GBAudio)
    (cycles : Int) (h : a.nextEvent = INT_MAX) :
    GBAudioProcessEvents fuel a cycles = some (a, INT_MAX) := by
  unfold GBAudioProcessEvents
  rw [if_pos h]

theorem GBAudioProcessEvents_unscheduled_witness :
    ({ audioZero with nextEvent := INT_MAX } : GBAudio).nextEvent = INT_MAX ∧
    GBAudioProcessEvents 3 { audioZero with nextEvent := INT_MAX } 7 =
      some ({ audioZero with nextEvent := INT_MAX }, INT_MAX) :=
  ⟨rfl, GBAudioProcessEvents_unscheduled 3 _ 7 rfl⟩

/-- C10: `mCoreThreadInterrupt` and `mCoreThreadContinue` on a null context
are no-ops touching no state; and on a thread that is not active (state
outside `[THREAD_RUNNING, THREAD_EXITING)`), `mCoreThreadInterrupt` only
increments `interruptDepth` and returns without changing the state, waking
nothing and not blocking. -/
theorem thread_null_noop_inactive_interrupt (t : MCoreThread)
    (h : mCoreThreadIsActive t = false) :
    mCoreThreadInterrupt none = { ctx := none, woken := [], blocked := false } ∧
    mCoreThreadContinue none = { ctx := none, woken := [], blocked := false } ∧
    mCoreThreadInterrupt (some t) =
      { ctx := some { t with interruptDepth := t.interruptDepth + 1 }
        woken := [], blocked := false } := by
  refine ⟨rfl, rfl, ?_⟩
  have h' : mCoreThreadIsActive
      { t with interruptDepth := t.interruptDepth + 1 } = false := by
    simpa [mCoreThreadIsActive] using h
  unfold mCoreThreadInterrupt
  dsimp only
  rw [if_pos (Or.inr (by simp [h']))]

theorem thread_null_noop_inactive_interrupt_witness :
    mCoreThreadIsActive threadInit = false ∧
    mCoreThreadInterrupt (some threadInit) =
      { ctx :=
          some { threadInit with interruptDepth := threadInit.interruptDepth + 1 }
        woken := [], blocked := false } :=
  ⟨by decide, (thread_null_noop_inactive_interrupt threadInit (by decide)).2.2⟩
